import Mathlib

/-!
Shallow embedding of the composable data-validation engine (the schema
library of this repository): JavaScript values and numbers, the
`ValidationResult` contract, the validator configuration objects and their
`validate` implementations, followed by theorems about the behaviour the
specification describes.
-/

/-- A JavaScript number: NaN, the two signed infinities, or a finite value.
Finite doubles are modelled as exact rationals; floating-point rounding is
outside the modelled fragment. -/
inductive JSNum where
  | nan
  | posInf
  | negInf
  | fin (q : ℚ)
deriving DecidableEq

/-- The JS `<` comparison on numbers: false whenever NaN is involved. -/
def JSNum.lt : JSNum → JSNum → Bool
  | .nan, _ => false
  | _, .nan => false
  | .negInf, .negInf => false
  | .negInf, _ => true
  | _, .negInf => false
  | .posInf, _ => false
  | .fin _, .posInf => true
  | .fin a, .fin b => decide (a < b)

/-- The JS `<=` comparison on numbers: false whenever NaN is involved. -/
def JSNum.le : JSNum → JSNum → Bool
  | .nan, _ => false
  | _, .nan => false
  | .negInf, _ => true
  | _, .negInf => false
  | _, .posInf => true
  | .posInf, _ => false
  | .fin a, .fin b => decide (a ≤ b)

/-- The JS `isNaN` test on a number. -/
def JSNum.isNaN : JSNum → Bool
  | .nan => true
  | _ => false

/-- `Number.isInteger`: true only for finite integral values. -/
def JSNum.isInteger : JSNum → Bool
  | .fin q => q.den == 1
  | _ => false

/-- The JS strict equality `===` on numbers: NaN is unequal to everything,
itself included; the two zeros are not distinguished in the rational
model. -/
def JSNum.strictEq : JSNum → JSNum → Bool
  | .nan, _ => false
  | _, .nan => false
  | .posInf, .posInf => true
  | .negInf, .negInf => true
  | .fin a, .fin b => a == b
  | _, _ => false

/-- Number of times `p` divides `n`, computed with explicit fuel. -/
def countFactor (p : Nat) : Nat → Nat → Nat
  | 0, _ => 0
  | fuel + 1, n => if 2 ≤ p && n % p == 0 && n / p != 0 then countFactor p fuel (n / p) + 1 else 0

/-- Left-pads a digit string with zeros up to width `k`. -/
def padLeftZeros (s : String) (k : Nat) : String :=
  String.mk (List.replicate (k - s.length) '0') ++ s

/-- Decimal rendering of a rational, matching the JS decimal string of a
number for integers and for fractions whose denominator divides a power of
ten. Other denominators (outside the plainly-printable fragment) fall back
to the num/den form. -/
def ratToString (q : ℚ) : String :=
  if q.den == 1 then toString q.num
  else
    let a := countFactor 2 q.den q.den
    let b := countFactor 5 q.den q.den
    if q.den == 2 ^ a * 5 ^ b then
      let k := max a b
      let scaled := q.num.natAbs * (10 ^ k / q.den)
      let sign := if q.num < 0 then "-" else ""
      sign ++ toString (scaled / 10 ^ k) ++ "." ++ padLeftZeros (toString (scaled % 10 ^ k)) k
    else toString q

/-- The JS string form of a number, as interpolated into error messages. -/
def JSNum.toJSString : JSNum → String
  | .nan => "NaN"
  | .posInf => "Infinity"
  | .negInf => "-Infinity"
  | .fin q => ratToString q

/-- A JavaScript runtime value as the validators observe it: the two nullish
values, primitives, `Date` objects (carrying their internal time value),
arrays, and plain objects as ordered own-property lists. -/
inductive JSValue where
  | null
  | undef
  | str (s : String)
  | num (n : JSNum)
  | bool (b : Bool)
  | date (time : JSNum)
  | arr (elems : List JSValue)
  | obj (fields : List (String × JSValue))

/-- The `typeof` operator restricted to the modelled values. -/
def jsTypeof : JSValue → String
  | .null => "object"
  | .undef => "undefined"
  | .str _ => "string"
  | .num _ => "number"
  | .bool _ => "boolean"
  | .date _ => "object"
  | .arr _ => "object"
  | .obj _ => "object"

/-- `Array.isArray`. -/
def JSValue.isArray : JSValue → Bool
  | .arr _ => true
  | _ => false

/-- Whether the value is the `undefined` value. -/
def JSValue.isUndef : JSValue → Bool
  | .undef => true
  | _ => false

/-- Property read `obj[key]`: a plain object yields the field value (an
absent key reads as undefined); the other modelled values have no relevant
own properties, so the read yields undefined. -/
def getProp (v : JSValue) (key : String) : JSValue :=
  match v with
  | .obj fields => (fields.lookup key).getD .undef
  | _ => (.undef)

/-- A literal value as Schema.literal accepts it: the TS signature
restricts the expected value to a string, a number, or a boolean. -/
inductive LiteralValue where
  | str (s : String)
  | num (n : JSNum)
  | bool (b : Bool)

/-- The literal value as the runtime value it is compared against. -/
def LiteralValue.toJSValue : LiteralValue → JSValue
  | .str s => .str s
  | .num n => .num n
  | .bool b => .bool b

/-- The template-string rendering of the literal inside the error message
`Value must be exactly ...`: a string interpolates as itself, a number and
a boolean through their standard JS string conversions. -/
def LiteralValue.render : LiteralValue → String
  | .str s => s
  | .num n => n.toJSString
  | .bool true => "true"
  | .bool false => "false"

/-- The JS strict equality `input === value` against a string, number, or
boolean literal: values of different runtime types are unequal, strings
and booleans compare by value, numbers by `JSNum.strictEq`. Non-primitive
inputs are never equal to a primitive literal. -/
def jsStrictEq (input : JSValue) (value : JSValue) : Bool :=
  match input, value with
  | .str a, .str b => a == b
  | .num a, .num b => JSNum.strictEq a b
  | .bool a, .bool b => a == b
  | _, _ => false

/-- Platform-supplied date behaviour: the time value that `new Date(string)`
produces for a given string, and the `toISOString` rendering of a time
value. Both are host functions, not part of the validator source. -/
structure JSPlatform where
  parseDateString : String → JSNum
  toISOString : JSNum → String

/-- Truncation toward zero of a rational (ECMAScript ToIntegerOrInfinity on
a finite value). -/
def ratTrunc (q : ℚ) : ℤ :=
  if q.num < 0 then -(((-q.num).toNat / q.den : ℕ) : ℤ) else ((q.num.toNat / q.den : ℕ) : ℤ)

/-- ECMAScript TimeClip, applied by `new Date(number)`: non-finite or
out-of-range time values give an invalid date (NaN time value). -/
def timeClip : JSNum → JSNum
  | .fin q => if abs q ≤ 8640000000000000 then .fin ((ratTrunc q : ℤ) : ℚ) else .nan
  | _ => .nan

/-- Result of a validation operation. `data` is meaningful on success (an
absent TS field reads as undefined, so the failure rows carry undefined);
`errors` is meaningful on failure (an absent TS field reads as the empty
list here). -/
structure ValidationResult where
  success : Bool
  data : JSValue := .undef
  errors : List String := []

/-- The JS expression `custom || message` on an optionally-set string:
undefined and the empty string are falsy and fall back to `message`. -/
def jsOr (custom : Option String) (message : String) : String :=
  match custom with
  | some s => if s.isEmpty then message else s
  | none => message

/-- ValidationUtils.isNullish. -/
def ValidationUtils.isNullish : JSValue → Bool
  | .null => true
  | .undef => true
  | _ => false

/-- The max half of ValidationUtils.validateRange, factored out of the
two sequential checks of the source. -/
def ValidationUtils.maxCheck (value : JSNum) (mx : Option JSNum) (type : String) : Option String :=
  match mx with
  | some m => if JSNum.lt m value then some (type ++ " must be no more than " ++ m.toJSString) else none
  | none => none

/-- ValidationUtils.validateRange: the min check and then the max check; a
missing bound never fails and the comparisons are the JS ones (false on
NaN). `value > max` is written as `max < value`, as the JS relational
semantics equate them. -/
def ValidationUtils.validateRange (value : JSNum) (mn mx : Option JSNum) (type : String) : Option String :=
  match mn with
  | some m =>
    if JSNum.lt value m then some (type ++ " must be at least " ++ m.toJSString)
    else ValidationUtils.maxCheck value mx type
  | none => ValidationUtils.maxCheck value mx type

/-- The unit word of a length error message. -/
def ValidationUtils.lengthUnit (type : String) : String :=
  if type == "Array" then "items" else "characters long"

/-- The maxLength half of ValidationUtils.validateLength. -/
def ValidationUtils.maxLengthCheck (length : Nat) (maxLength : Option JSNum) (type : String) : Option String :=
  match maxLength with
  | some m =>
    if JSNum.lt m (.fin (length : ℚ)) then
      some (type ++ " must have no more than " ++ m.toJSString ++ " " ++ ValidationUtils.lengthUnit type)
    else none
  | none => none

/-- ValidationUtils.validateLength: minLength check then maxLength check. -/
def ValidationUtils.validateLength (length : Nat) (minLength maxLength : Option JSNum) (type : String) : Option String :=
  match minLength with
  | some m =>
    if JSNum.lt (.fin (length : ℚ)) m then
      some (type ++ " must have at least " ++ m.toJSString ++ " " ++ ValidationUtils.lengthUnit type)
    else ValidationUtils.maxLengthCheck length maxLength type
  | none => ValidationUtils.maxLengthCheck length maxLength type

/-- ValidationUtils.createPatternError: the source's optional customMessage
argument is supplied at no call site, so only the default text arises. -/
def ValidationUtils.createPatternError : String := "Value does not match the required pattern"

/-- Validator.createError: the failure result; a configured custom message
overrides the default one with the falsy-string semantics of the source's
`this._customMessage || message`. -/
def Validator.createError (customMessage : Option String) (message : String) : ValidationResult :=
  { success := false, errors := [jsOr customMessage message] }

/-- Validator.createSuccess. -/
def Validator.createSuccess (data : JSValue) : ValidationResult :=
  { success := true, data := data }

/-- Validator.handleOptional: the nullish short-circuit shared by every
validator kind. -/
def Validator.handleOptional (optional : Bool) (customMessage : Option String) (value : JSValue) : Option ValidationResult :=
  if ValidationUtils.isNullish value then
    some (if optional then Validator.createSuccess .undef else Validator.createError customMessage "Value is required")
  else none

/-- StringValidator.validate: optional handling, the `typeof value ===
'string'` check (the match on the string constructor), length checks, then
the optional pattern test. -/
def StringValidator.validate (optional : Bool) (customMessage : Option String)
    (minLength maxLength : Option JSNum) (pattern : Option (String → Bool))
    (value : JSValue) : ValidationResult :=
  match Validator.handleOptional optional customMessage value with
  | some r => r
  | none =>
    match value with
    | .str s =>
      match ValidationUtils.validateLength s.length minLength maxLength "String" with
      | some lengthError => Validator.createError customMessage lengthError
      | none =>
        match pattern with
        | some p =>
          if !p s then Validator.createError customMessage ValidationUtils.createPatternError
          else Validator.createSuccess (.str s)
        | none => Validator.createSuccess (.str s)
    | _ => Validator.createError customMessage "Value must be a string"

/-- NumberValidator.validate: optional handling, the `typeof value ===
'number' && !isNaN(value)` check, range, integer and positive checks in
source order. -/
def NumberValidator.validate (optional : Bool) (customMessage : Option String)
    (mn mx : Option JSNum) ( _integer _positive : Bool) (value : JSValue) : ValidationResult :=
  match Validator.handleOptional optional customMessage value with
  | some r => r
  | none =>
    match value with
    | .num num =>
      if num.isNaN then Validator.createError customMessage "Value must be a number"
      else
        match ValidationUtils.validateRange num mn mx "Number" with
        | some rangeError => Validator.createError customMessage rangeError
        | none =>
          if _integer && !num.isInteger then Validator.createError customMessage "Number must be an integer"
          else if _positive && JSNum.le num (.fin 0) then Validator.createError customMessage "Number must be positive"
          else Validator.createSuccess (.num num)
    | _ => Validator.createError customMessage "Value must be a number"

/-- BooleanValidator.validate: optional handling and the typeof check. -/
def BooleanValidator.validate (optional : Bool) (customMessage : Option String) (value : JSValue) : ValidationResult :=
  match Validator.handleOptional optional customMessage value with
  | some r => r
  | none =>
    match value with
    | .bool b => Validator.createSuccess (.bool b)
    | _ => Validator.createError customMessage "Value must be a boolean"

/-- The validate of the anonymous Validator subclass that Schema.literal
instantiates: optional handling, then the strict-equality comparison
`input !== value` against the configured literal, failing with
"Value must be exactly <value>"; on success the input itself is
returned. -/
def LiteralValidator.validate (optional : Bool) (customMessage : Option String)
    (value : LiteralValue) (input : JSValue) : ValidationResult :=
  match Validator.handleOptional optional customMessage input with
  | some r => r
  | none =>
    if !jsStrictEq input value.toJSValue then
      Validator.createError customMessage ("Value must be exactly " ++ value.render)
    else Validator.createSuccess input

/-- DateValidator.parseDate: a Date instance is taken as-is, a string or a
number is converted through the platform date constructor, anything else is
a type failure; a resulting invalid date (NaN time) is a valid-date
failure. -/
def DateValidator.parseDate (P : JSPlatform) (customMessage : Option String) (value : JSValue) : ValidationResult :=
  match value with
  | .date t =>
    if t.isNaN then Validator.createError customMessage "Value must be a valid date"
    else Validator.createSuccess (.date t)
  | .str s =>
    if (P.parseDateString s).isNaN then Validator.createError customMessage "Value must be a valid date"
    else Validator.createSuccess (.date (P.parseDateString s))
  | .num q =>
    if (timeClip q).isNaN then Validator.createError customMessage "Value must be a valid date"
    else Validator.createSuccess (.date (timeClip q))
  | _ => Validator.createError customMessage "Value must be a Date, string, or number"

/-- DateValidator.validateDateRange: the min and max bound checks with the
ISO rendering of the bound in the message. -/
def DateValidator.validateDateRange (P : JSPlatform) (minDate maxDate : Option JSNum) (t : JSNum) : Option String :=
  match minDate with
  | some m =>
    if JSNum.lt t m then some ("Date must be after " ++ P.toISOString m)
    else
      match maxDate with
      | some M => if JSNum.lt M t then some ("Date must be before " ++ P.toISOString M) else none
      | none => none
  | none =>
    match maxDate with
    | some M => if JSNum.lt M t then some ("Date must be before " ++ P.toISOString M) else none
    | none => none

/-- DateValidator.validate: optional handling, parse, then the date range
check. -/
def DateValidator.validate (P : JSPlatform) (optional : Bool) (customMessage : Option String)
    (minDate maxDate : Option JSNum) (value : JSValue) : ValidationResult :=
  match Validator.handleOptional optional customMessage value with
  | some r => r
  | none =>
    let dateResult := DateValidator.parseDate P customMessage value
    if dateResult.success then
      match dateResult.data with
      | .date t =>
        match DateValidator.validateDateRange P minDate maxDate t with
        | some rangeError => Validator.createError customMessage rangeError
        | none => Validator.createSuccess (.date t)
      | _ => dateResult
    else dateResult

/-- A configured validator, one variant per validator class of the source,
the anonymous subclass that Schema.literal instantiates included. Each
variant carries the base-class state (`_optional`, `_customMessage`) and
its own constraint fields; composite variants own their child validators.
A `RegExp` is modelled as its matching predicate. -/
inductive Validator where
  | string (optional : Bool) (customMessage : Option String)
      (minLength maxLength : Option JSNum) (pattern : Option (String → Bool))
  | number (optional : Bool) (customMessage : Option String)
      (mn mx : Option JSNum) ( _integer _positive : Bool)
  | boolean (optional : Bool) (customMessage : Option String)
  | date (optional : Bool) (customMessage : Option String) (minDate maxDate : Option JSNum)
  | array (optional : Bool) (customMessage : Option String)
      (minLength maxLength : Option JSNum) (itemValidator : Validator)
  | object (optional : Bool) (customMessage : Option String) (schema : List (String × Validator))
  | union (optional : Bool) (customMessage : Option String) (validators : List Validator)
  | literal (optional : Bool) (customMessage : Option String) (value : LiteralValue)

/-- The `_optional` flag of a validator. -/
def Validator.optionalFlag : Validator → Bool
  | .string o _ _ _ _ => o
  | .number o _ _ _ _ _ => o
  | .boolean o _ => o
  | .date o _ _ _ => o
  | .array o _ _ _ _ => o
  | .object o _ _ => o
  | .union o _ _ => o
  | .literal o _ _ => o

/-- The `_customMessage` field of a validator. -/
def Validator.customMessage : Validator → Option String
  | .string _ m _ _ _ => m
  | .number _ m _ _ _ _ => m
  | .boolean _ m => m
  | .date _ m _ _ => m
  | .array _ m _ _ _ => m
  | .object _ m _ => m
  | .union _ m _ => m
  | .literal _ m _ => m

/-- Replaces the `_customMessage` field, leaving everything else (child
validators included) unchanged. -/
def Validator.setCustomMessage : Validator → Option String → Validator
  | .string o _ mn mx p, m => .string o m mn mx p
  | .number o _ mn mx i pos, m => .number o m mn mx i pos
  | .boolean o _, m => .boolean o m
  | .date o _ mn mx, m => .date o m mn mx
  | .array o _ mn mx it, m => .array o m mn mx it
  | .object o _ s, m => .object o m s
  | .union o _ vs, m => .union o m vs
  | .literal o _ value, m => .literal o m value

/-- Validator.withMessage: sets the custom error message. -/
def Validator.withMessage (v : Validator) (message : String) : Validator :=
  Validator.setCustomMessage v (some message)

/-- Validator.optional: sets the nullish-bypass flag. -/
def Validator.optional : Validator → Validator
  | .string _ m mn mx p => .string true m mn mx p
  | .number _ m mn mx i pos => .number true m mn mx i pos
  | .boolean _ m => .boolean true m
  | .date _ m mn mx => .date true m mn mx
  | .array _ m mn mx it => .array true m mn mx it
  | .object _ m s => .object true m s
  | .union _ m vs => .union true m vs
  | .literal _ m value => .literal true m value

/-- ObjectValidator.strict: its whole effect in the source is to install a
custom failure message; no code path inspects extra properties. -/
def ObjectValidator.strict (v : Validator) : Validator :=
  Validator.withMessage v "Object contains unexpected properties"

/-- ArrayValidator.nonEmpty: sets `_minLength = 1` and installs a custom
message. Defined for the array variant; elsewhere it is the identity. -/
def ArrayValidator.nonEmpty : Validator → Validator
  | .array o _ _ mx it => .array o (some "Array cannot be empty") (some (.fin 1)) mx it
  | v => v

/-- NumberValidator.min (RangeConstrainedValidator.min). -/
def NumberValidator.min : Validator → JSNum → Validator
  | .number o m _ mx i pos, value => .number o m (some value) mx i pos
  | v, _ => v

/-- NumberValidator.max (RangeConstrainedValidator.max). -/
def NumberValidator.max : Validator → JSNum → Validator
  | .number o m mn _ i pos, value => .number o m mn (some value) i pos
  | v, _ => v

/-- NumberValidator.integer. -/
def NumberValidator.integer : Validator → Validator
  | .number o m mn mx _ pos => .number o m mn mx true pos
  | v => v

/-- NumberValidator.positive. -/
def NumberValidator.positive : Validator → Validator
  | .number o m mn mx i _ => .number o m mn mx i true
  | v => v

/-- LengthConstrainedValidator.minLength, for the string and array variants. -/
def LengthConstrainedValidator.minLength : Validator → JSNum → Validator
  | .string o m _ mx p, len => .string o m (some len) mx p
  | .array o m _ mx it, len => .array o m (some len) mx it
  | v, _ => v

/-- LengthConstrainedValidator.maxLength, for the string and array variants. -/
def LengthConstrainedValidator.maxLength : Validator → JSNum → Validator
  | .string o m mn _ p, len => .string o m mn (some len) p
  | .array o m mn _ it, len => .array o m mn (some len) it
  | v, _ => v

/-- DateValidator.min. -/
def DateValidator.min : Validator → JSNum → Validator
  | .date o m _ mx, d => .date o m (some d) mx
  | v, _ => v

/-- DateValidator.max. -/
def DateValidator.max : Validator → JSNum → Validator
  | .date o m mn _, d => .date o m mn (some d)
  | v, _ => v

/-- Schema.string. -/
def Schema.string : Validator := .string false none none none none

/-- Schema.number. -/
def Schema.number : Validator := .number false none none none false false

/-- Schema.boolean. -/
def Schema.boolean : Validator := .boolean false none

/-- Schema.date. -/
def Schema.date : Validator := .date false none none none

/-- Schema.array. -/
def Schema.array (itemValidator : Validator) : Validator := .array false none none none itemValidator

/-- Schema.object. -/
def Schema.object (schema : List (String × Validator)) : Validator := .object false none schema

/-- Schema.union. -/
def Schema.union (validators : List Validator) : Validator := .union false none validators

/-- Schema.literal. -/
def Schema.literal (value : LiteralValue) : Validator := .literal false none value

mutual

/-- Validator.validate of each variant, dispatching to the per-class
implementations; the composite bodies (ArrayValidator.validate,
ObjectValidator.validate, UnionValidator.validate) are inlined here because
they recurse into child validators. -/
def Validator.validate (P : JSPlatform) : Validator → JSValue → ValidationResult
  | .string o m mn mx p, value => StringValidator.validate o m mn mx p value
  | .number o m mn mx i pos, value => NumberValidator.validate o m mn mx i pos value
  | .boolean o m, value => BooleanValidator.validate o m value
  | .date o m mn mx, value => DateValidator.validate P o m mn mx value
  | .array o m mn mx itemValidator, value =>
    match Validator.handleOptional o m value with
    | some r => r
    | none =>
      match value with
      | .arr elems =>
        match ValidationUtils.validateLength elems.length mn mx "Array" with
        | some lengthError => Validator.createError m lengthError
        | none =>
          let itemResult := ArrayValidator.validateItems P itemValidator 0 elems
          if itemResult.2.length > 0 then { success := false, errors := itemResult.2 }
          else Validator.createSuccess (.arr itemResult.1)
      | _ => Validator.createError m "Value must be an array"
  | .object o m schema, value =>
    match Validator.handleOptional o m value with
    | some r => r
    | none =>
      if jsTypeof value != "object" || JSValue.isArray value then
        Validator.createError m "Value must be an object"
      else
        let fieldResult := ObjectValidator.validateFields P value schema
        if fieldResult.2.length > 0 then { success := false, errors := fieldResult.2 }
        else Validator.createSuccess (.obj fieldResult.1)
  | .union o m validators, value =>
    match Validator.handleOptional o m value with
    | some r => r
    | none =>
      match UnionValidator.firstSuccess P value validators with
      | some r => r
      | none => Validator.createError m "Value does not match any of the allowed types"
  | .literal o m value, input => LiteralValidator.validate o m value input
termination_by v _ => (sizeOf v, 0)

/-- The element loop of ArrayValidator.validateItems: every index is
visited; a successful element appends its data, a failing one appends one
formatted entry holding the child errors joined with a comma. Returns the
(validatedItems, errors) pair of the source's loop. -/
def ArrayValidator.validateItems (P : JSPlatform) (itemValidator : Validator) (i : Nat) :
    List JSValue → List JSValue × List String
  | [] => ([], [])
  | x :: xs =>
    let result := Validator.validate P itemValidator x
    let rest := ArrayValidator.validateItems P itemValidator (i + 1) xs
    if result.success then (result.data :: rest.1, rest.2)
    else (rest.1, ("Item at index " ++ toString i ++ ": " ++ String.intercalate ", " result.errors) :: rest.2)
termination_by xs => (sizeOf itemValidator, sizeOf xs)

/-- The field loop of ObjectValidator.validateFields over the declared
schema entries: every declared field is visited with the input's property
value; a success writes the (key, data) pair only when the data is not
undefined, a failure appends one formatted entry holding the child errors
joined with a comma. Returns the (validatedObj, errors) pair of the
source's loop. -/
def ObjectValidator.validateFields (P : JSPlatform) (obj : JSValue) :
    List (String × Validator) → List (String × JSValue) × List String
  | [] => ([], [])
  | (key, validator) :: rest =>
    let result := Validator.validate P validator (getProp obj key)
    let restResult := ObjectValidator.validateFields P obj rest
    if result.success then
      (if !result.data.isUndef then (key, result.data) :: restResult.1 else restResult.1, restResult.2)
    else
      (restResult.1, ("Field '" ++ key ++ "': " ++ String.intercalate ", " result.errors) :: restResult.2)
termination_by schema => (sizeOf schema, 0)

/-- The alternative loop of UnionValidator.validate: the first succeeding
alternative's result, or none when every alternative fails. -/
def UnionValidator.firstSuccess (P : JSPlatform) (value : JSValue) : List Validator → Option ValidationResult
  | [] => none
  | validator :: rest =>
    let result := Validator.validate P validator value
    if result.success then some result else UnionValidator.firstSuccess P value rest
termination_by vs => (sizeOf vs, 0)

end

/-- Whether a validator fails on this input through child-error aggregation
(the array/object field loops) rather than through its own `createError`:
the input reaches the loop and the loop collects at least one child error.
The custom-message field plays no role in this condition. -/
def aggregatedFailure (P : JSPlatform) : Validator → JSValue → Bool
  | .array _ _ mn mx itemValidator, .arr elems =>
    (ValidationUtils.validateLength elems.length mn mx "Array").isNone
      && !(ArrayValidator.validateItems P itemValidator 0 elems).2.isEmpty
  | .object _ _ schema, value =>
    !(ValidationUtils.isNullish value)
      && (jsTypeof value == "object" && !JSValue.isArray value)
      && !(ObjectValidator.validateFields P value schema).2.isEmpty
  | _, _ => false

/-- The first violated constraint of a number validator in the source's
fixed evaluation order (range with min before max, then integer, then
positive), paired with its default message; none when every configured
constraint holds. -/
def NumberValidator.firstViolation (mn mx : Option JSNum) ( _integer _positive : Bool) (num : JSNum) : Option String :=
  match ValidationUtils.validateRange num mn mx "Number" with
  | some e => some e
  | none =>
    if _integer && !num.isInteger then some "Number must be an integer"
    else if _positive && JSNum.le num (.fin 0) then some "Number must be positive"
    else none

/-- Whether a value belongs to the types DateValidator.parseDate can
convert: a Date instance, a string, or a number. -/
def JSValue.isDateConvertible : JSValue → Bool
  | .date _ => true
  | .str _ => true
  | .num _ => true
  | _ => false

/-- A concrete platform whose date-string parser rejects every string; used
to instantiate platform-quantified statements at concrete inputs. -/
def platformStub : JSPlatform := ⟨fun _ => .nan, fun _ => ""⟩

/-- A concrete platform that parses the one string "2023-01-01" to its UTC
time value 1672531200000, as the platform date constructor does. -/
def platform2023 : JSPlatform :=
  ⟨fun s => if s == "2023-01-01" then .fin 1672531200000 else .nan, fun _ => ""⟩

/-- The formatted entry an array element at index `i` contributes when it
fails with the given child result. -/
def itemEntry (p : Nat × ValidationResult) : String :=
  "Item at index " ++ toString p.1 ++ ": " ++ String.intercalate ", " p.2.errors

/-- The formatted entry a declared field contributes when it fails with the
given child result. -/
def fieldEntry (key : String) (r : ValidationResult) : String :=
  "Field '" ++ key ++ "': " ++ String.intercalate ", " r.errors

theorem ArrayValidator.validateItems_eq (P : JSPlatform) (itemValidator : Validator) :
    ∀ (i : Nat) (elems : List JSValue),
    ArrayValidator.validateItems P itemValidator i elems =
      ((elems.map (Validator.validate P itemValidator)).filterMap
         (fun r => if r.success then some r.data else none),
       (List.enumFrom i (elems.map (Validator.validate P itemValidator))).filterMap
         (fun p => if p.2.success then none else some (itemEntry p))) := by
  intro i elems
  induction elems generalizing i with
  | nil => simp [ArrayValidator.validateItems]
  | cons x xs ih =>
    simp only [ArrayValidator.validateItems, List.map_cons, List.enumFrom, List.filterMap_cons,
      ih (i + 1)]
    by_cases h : (Validator.validate P itemValidator x).success <;> simp [h, itemEntry]

theorem enumFrom_failures_nil_iff (rs : List ValidationResult) :
    ∀ i : Nat, ((List.enumFrom i rs).filterMap
      (fun p => if p.2.success then none else some (itemEntry p))) = [] ↔ rs.all (·.success) := by
  induction rs with
  | nil => intro i; simp
  | cons r rest ih =>
    intro i
    by_cases h : r.success
    · simp [h, List.enumFrom, -List.filterMap_eq_nil_iff, -List.all_eq_true]
      exact ih (i + 1)
    · simp [h, List.enumFrom, -List.filterMap_eq_nil_iff, -List.all_eq_true]

theorem filterMap_data_of_all_success (rs : List ValidationResult)
    (h : rs.all (·.success) = true) :
    rs.filterMap (fun r => if r.success then some r.data else none) = rs.map (·.data) := by
  induction rs with
  | nil => simp
  | cons r rest ih =>
    simp only [List.all_cons, Bool.and_eq_true] at h
    simp [h.1, ih h.2]

/-- Claim C1 (amended): for every array validator and every input array that
passes the length constraints, element validation never short-circuits:
every index is validated with the child validator, and if any element fails
the overall result is a single failure whose errors contain, for each
failing element in order, exactly one entry "Item at index i: " followed by
that element's error messages joined with ", " (an element that fails with
several errors still contributes a single entry). When every element
succeeds the validated element data is returned. -/
theorem arrayValidator_item_error_aggregation (P : JSPlatform) (o : Bool) (m : Option String)
    (mn mx : Option JSNum) (itemValidator : Validator) (elems : List JSValue)
    (hlen : ValidationUtils.validateLength elems.length mn mx "Array" = none) :
    Validator.validate P (.array o m mn mx itemValidator) (.arr elems) =
      (if (elems.map (Validator.validate P itemValidator)).all (·.success) then
        { success := true,
          data := .arr ((elems.map (Validator.validate P itemValidator)).map (·.data)),
          errors := [] }
      else
        { success := false, data := .undef,
          errors := (List.enumFrom 0 (elems.map (Validator.validate P itemValidator))).filterMap
            (fun p => if p.2.success then none else some (itemEntry p)) }) := by
  simp only [Validator.validate, Validator.handleOptional, ValidationUtils.isNullish,
    Bool.false_eq_true, if_false, hlen, ArrayValidator.validateItems_eq]
  by_cases hall : (elems.map (Validator.validate P itemValidator)).all (·.success)
  · have hnil := (enumFrom_failures_nil_iff (elems.map (Validator.validate P itemValidator)) 0).mpr hall
    rw [hnil]
    simp [hall, Validator.createSuccess, filterMap_data_of_all_success _ hall,
      -List.filterMap_eq_nil_iff, -List.all_eq_true]
  · have hne : ((List.enumFrom 0 (elems.map (Validator.validate P itemValidator))).filterMap
        (fun p => if p.2.success then none else some (itemEntry p))) ≠ [] := by
      intro hc
      exact hall ((enumFrom_failures_nil_iff _ 0).mp hc)
    have hpos : 0 < ((List.enumFrom 0 (elems.map (Validator.validate P itemValidator))).filterMap
        (fun p => if p.2.success then none else some (itemEntry p))).length :=
      List.length_pos.mpr hne
    simp [hall, hpos, -List.filterMap_eq_nil_iff, -List.all_eq_true]

/-- Claim C1 witness: the specification's own example, with the length
hypothesis discharged at the concrete input: a mixed array under a string
item validator fails with exactly the two indexed entries. -/
theorem arrayValidator_item_error_aggregation_witness :
    ValidationUtils.validateLength 4 none none "Array" = none ∧
    Validator.validate platformStub (Schema.array Schema.string)
      (.arr [.str "a", .num (.fin 1), .str "c", .num (.fin 2)]) =
      { success := false, data := .undef,
        errors := ["Item at index 1: Value must be a string", "Item at index 3: Value must be a string"] } := by
  refine ⟨rfl, ?_⟩
  simp only [Schema.array, Schema.string]
  rw [arrayValidator_item_error_aggregation platformStub false none none none
    (.string false none none none none) [.str "a", .num (.fin 1), .str "c", .num (.fin 2)] rfl]
  simp [Validator.validate, ArrayValidator.validateItems, ObjectValidator.validateFields,
      UnionValidator.firstSuccess, StringValidator.validate, NumberValidator.validate,
      BooleanValidator.validate, DateValidator.validate, DateValidator.parseDate,
      DateValidator.validateDateRange, Validator.handleOptional, Validator.createError,
      Validator.createSuccess, ValidationUtils.isNullish, ValidationUtils.validateRange,
      ValidationUtils.maxCheck, ValidationUtils.validateLength, ValidationUtils.maxLengthCheck,
      ValidationUtils.lengthUnit, ValidationUtils.createPatternError, jsOr, jsTypeof, getProp,
      JSValue.isArray, JSValue.isUndef, JSValue.isDateConvertible, JSNum.lt, JSNum.le,
      JSNum.isNaN, JSNum.isInteger, JSNum.toJSString, ratToString, timeClip, ratTrunc,
      countFactor, padLeftZeros, Schema.string, Schema.number, Schema.boolean, Schema.date,
      Schema.array, Schema.object, Schema.union, Validator.withMessage,
      Validator.setCustomMessage, Validator.optional, Validator.optionalFlag,
      Validator.customMessage, ObjectValidator.strict, ArrayValidator.nonEmpty,
      NumberValidator.min, NumberValidator.max, NumberValidator.integer,
      NumberValidator.positive, LengthConstrainedValidator.minLength,
      LengthConstrainedValidator.maxLength, DateValidator.min, DateValidator.max,
      aggregatedFailure, NumberValidator.firstViolation, platformStub, platform2023,
      itemEntry, fieldEntry, List.filterMap_cons, List.lookup]
  all_goals decide

/-- Claim C1 counterexample, against the claim as stated: first, an element
that itself fails with two child errors contributes one aggregated entry
(child errors joined with a comma), not one prefixed entry per child
error; second, an array that fails its length constraint reports only the
length error and no element entry at all, although its element at index 0
fails under the item validator. -/
theorem arrayValidator_single_entry_and_length_shortcircuit :
    (Validator.validate platformStub
      (Schema.array (Schema.object [("x", Schema.string), ("y", Schema.number)]))
      (.arr [.obj []])).errors =
        ["Item at index 0: Field 'x': Value is required, Field 'y': Value is required"]
    ∧ (Validator.validate platformStub
      (Schema.array (Schema.object [("x", Schema.string), ("y", Schema.number)]))
      (.arr [.obj []])).errors.length ≠ 2
    ∧ (Validator.validate platformStub
        (LengthConstrainedValidator.minLength (Schema.array Schema.string) (.fin 5))
        (.arr [.num (.fin 1)])).errors = ["Array must have at least 5 items"]
    ∧ (Validator.validate platformStub Schema.string (.num (.fin 1))).success = false
    ∧ "Item at index 0: Value must be a string" ∉ (Validator.validate platformStub
        (LengthConstrainedValidator.minLength (Schema.array Schema.string) (.fin 5))
        (.arr [.num (.fin 1)])).errors := by
  refine ⟨?_, ?_, ?_, ?_, ?_⟩ <;>
    simp [Validator.validate, ArrayValidator.validateItems, ObjectValidator.validateFields,
      UnionValidator.firstSuccess, StringValidator.validate, NumberValidator.validate,
      BooleanValidator.validate, DateValidator.validate, DateValidator.parseDate,
      DateValidator.validateDateRange, Validator.handleOptional, Validator.createError,
      Validator.createSuccess, ValidationUtils.isNullish, ValidationUtils.validateRange,
      ValidationUtils.maxCheck, ValidationUtils.validateLength, ValidationUtils.maxLengthCheck,
      ValidationUtils.lengthUnit, ValidationUtils.createPatternError, jsOr, jsTypeof, getProp,
      JSValue.isArray, JSValue.isUndef, JSValue.isDateConvertible, JSNum.lt, JSNum.le,
      JSNum.isNaN, JSNum.isInteger, JSNum.toJSString, ratToString, timeClip, ratTrunc,
      countFactor, padLeftZeros, Schema.string, Schema.number, Schema.boolean, Schema.date,
      Schema.array, Schema.object, Schema.union, Validator.withMessage,
      Validator.setCustomMessage, Validator.optional, Validator.optionalFlag,
      Validator.customMessage, ObjectValidator.strict, ArrayValidator.nonEmpty,
      NumberValidator.min, NumberValidator.max, NumberValidator.integer,
      NumberValidator.positive, LengthConstrainedValidator.minLength,
      LengthConstrainedValidator.maxLength, DateValidator.min, DateValidator.max,
      aggregatedFailure, NumberValidator.firstViolation, platformStub, platform2023,
      itemEntry, fieldEntry, List.filterMap_cons, List.lookup] <;>
    decide

theorem ObjectValidator.validateFields_eq (P : JSPlatform) (obj : JSValue) :
    ∀ schema : List (String × Validator),
    ObjectValidator.validateFields P obj schema =
      (schema.filterMap (fun kv =>
          if (Validator.validate P kv.2 (getProp obj kv.1)).success then
            (if (Validator.validate P kv.2 (getProp obj kv.1)).data.isUndef then none
             else some (kv.1, (Validator.validate P kv.2 (getProp obj kv.1)).data))
          else none),
       schema.filterMap (fun kv =>
          if (Validator.validate P kv.2 (getProp obj kv.1)).success then none
          else some (fieldEntry kv.1 (Validator.validate P kv.2 (getProp obj kv.1))))) := by
  intro schema
  induction schema with
  | nil => simp [ObjectValidator.validateFields]
  | cons kv rest ih =>
    obtain ⟨key, w⟩ := kv
    simp only [ObjectValidator.validateFields, ih, List.filterMap_cons]
    by_cases h : (Validator.validate P w (getProp obj key)).success
    · by_cases hd : (Validator.validate P w (getProp obj key)).data.isUndef <;>
        simp [h, hd, fieldEntry]
    · simp [h, fieldEntry]

theorem fields_failures_nil_iff (P : JSPlatform) (obj : JSValue) :
    ∀ schema : List (String × Validator),
    (schema.filterMap (fun kv =>
        if (Validator.validate P kv.2 (getProp obj kv.1)).success then none
        else some (fieldEntry kv.1 (Validator.validate P kv.2 (getProp obj kv.1))))) = []
      ↔ (schema.map (fun kv => Validator.validate P kv.2 (getProp obj kv.1))).all (·.success) := by
  intro schema
  induction schema with
  | nil => simp
  | cons kv rest ih =>
    by_cases h : (Validator.validate P kv.2 (getProp obj kv.1)).success
    · simp [h, List.filterMap_cons, -List.filterMap_eq_nil_iff, -List.all_eq_true]
      exact ih
    · simp [h, List.filterMap_cons, -List.filterMap_eq_nil_iff, -List.all_eq_true]

theorem fields_data_of_all_success (P : JSPlatform) (obj : JSValue) :
    ∀ schema : List (String × Validator),
    (schema.map (fun kv => Validator.validate P kv.2 (getProp obj kv.1))).all (·.success) →
    schema.filterMap (fun kv =>
        if (Validator.validate P kv.2 (getProp obj kv.1)).success then
          (if (Validator.validate P kv.2 (getProp obj kv.1)).data.isUndef then none
           else some (kv.1, (Validator.validate P kv.2 (getProp obj kv.1)).data))
        else none) =
      schema.filterMap (fun kv =>
        if (Validator.validate P kv.2 (getProp obj kv.1)).data.isUndef then none
        else some (kv.1, (Validator.validate P kv.2 (getProp obj kv.1)).data)) := by
  intro schema
  induction schema with
  | nil => simp
  | cons kv rest ih =>
    intro h
    simp only [List.map_cons, List.all_cons, Bool.and_eq_true] at h
    simp [List.filterMap_cons, h.1, ih h.2]

theorem ObjectValidator.validateFields_congr (P : JSPlatform) (a b : JSValue) :
    ∀ schema : List (String × Validator),
    (∀ kv ∈ schema, getProp a kv.1 = getProp b kv.1) →
    ObjectValidator.validateFields P a schema = ObjectValidator.validateFields P b schema := by
  intro schema
  induction schema with
  | nil => intro _; simp [ObjectValidator.validateFields]
  | cons kv rest ih =>
    intro h
    obtain ⟨key, w⟩ := kv
    simp only [ObjectValidator.validateFields]
    rw [h (key, w) (List.mem_cons_self _ _), ih (fun kv hkv => h kv (List.mem_cons_of_mem _ hkv))]

/-- Claim C2 (amended): for every object validator and every object input,
validate checks every declared field (a failure on one field does not stop
evaluation of the others); each failing field appends exactly one entry
"Field '<name>': " followed by that field's child errors joined with ", "
(a field that fails with several child errors still contributes one
entry); on success a field's value is written into the result object only
if it is not undefined, and overall success returns a new object holding
only the validated, defined declared fields. Extra input keys are ignored
(not validated, not copied, not flagged) for every custom-message
configuration, hence also when strict() was called, since strict() only
sets the custom message. -/
theorem objectValidator_field_validation (P : JSPlatform) (o : Bool) (m : Option String)
    (schema : List (String × Validator)) (fields : List (String × JSValue)) :
    (Validator.validate P (.object o m schema) (.obj fields) =
      (if (schema.map (fun kv => Validator.validate P kv.2 (getProp (.obj fields) kv.1))).all (·.success) then
        { success := true,
          data := .obj (schema.filterMap (fun kv =>
            if (Validator.validate P kv.2 (getProp (.obj fields) kv.1)).data.isUndef then none
            else some (kv.1, (Validator.validate P kv.2 (getProp (.obj fields) kv.1)).data))),
          errors := [] }
      else
        { success := false, data := .undef,
          errors := schema.filterMap (fun kv =>
            if (Validator.validate P kv.2 (getProp (.obj fields) kv.1)).success then none
            else some (fieldEntry kv.1 (Validator.validate P kv.2 (getProp (.obj fields) kv.1)))) }))
    ∧ (∀ (k : String) (w : JSValue), (∀ kv ∈ schema, kv.1 ≠ k) →
        Validator.validate P (.object o m schema) (.obj ((k, w) :: fields)) =
          Validator.validate P (.object o m schema) (.obj fields)) := by
  constructor
  · simp only [Validator.validate, Validator.handleOptional, ValidationUtils.isNullish,
      Bool.false_eq_true, if_false, jsTypeof, JSValue.isArray, bne_self_eq_false,
      Bool.false_or, Bool.or_self, ObjectValidator.validateFields_eq]
    by_cases hall : (schema.map (fun kv => Validator.validate P kv.2 (getProp (.obj fields) kv.1))).all (·.success)
    · have hnil := (fields_failures_nil_iff P (.obj fields) schema).mpr hall
      rw [hnil]
      simp [hall, Validator.createSuccess, fields_data_of_all_success P (.obj fields) schema hall,
        -List.filterMap_eq_nil_iff, -List.all_eq_true]
    · have hne : (schema.filterMap (fun kv =>
          if (Validator.validate P kv.2 (getProp (.obj fields) kv.1)).success then none
          else some (fieldEntry kv.1 (Validator.validate P kv.2 (getProp (.obj fields) kv.1))))) ≠ [] := by
        intro hc
        exact hall ((fields_failures_nil_iff P (.obj fields) schema).mp hc)
      have hpos := List.length_pos.mpr hne
      simp [hall, hpos, -List.filterMap_eq_nil_iff, -List.all_eq_true]
  · intro k w hk
    simp only [Validator.validate, Validator.handleOptional, ValidationUtils.isNullish,
      Bool.false_eq_true, if_false, jsTypeof, JSValue.isArray]
    rw [ObjectValidator.validateFields_congr P (.obj ((k, w) :: fields)) (.obj fields) schema ?_]
    intro kv hkv
    have hne : (kv.1 == k) = false := beq_eq_false_iff_ne.mpr (hk kv hkv)
    simp [getProp, List.lookup, hne]

/-- Claim C2 counterexample, against the claim as stated: a declared field
whose child validator fails with two errors contributes a single aggregated
entry "Field 'a': ..." holding both child messages joined with a comma —
not one errors entry per child error. -/
theorem objectValidator_single_entry_per_failing_field :
    (Validator.validate platformStub
      (Schema.object [("a", Schema.object [("x", Schema.string), ("y", Schema.number)])])
      (.obj [("a", .obj [])])).errors =
        ["Field 'a': Field 'x': Value is required, Field 'y': Value is required"]
    ∧ (Validator.validate platformStub
      (Schema.object [("a", Schema.object [("x", Schema.string), ("y", Schema.number)])])
      (.obj [("a", .obj [])])).errors.length ≠ 2 := by
  refine ⟨?_, ?_⟩ <;>
    simp [Validator.validate, ArrayValidator.validateItems, ObjectValidator.validateFields,
      UnionValidator.firstSuccess, StringValidator.validate, NumberValidator.validate,
      BooleanValidator.validate, DateValidator.validate, DateValidator.parseDate,
      DateValidator.validateDateRange, Validator.handleOptional, Validator.createError,
      Validator.createSuccess, ValidationUtils.isNullish, ValidationUtils.validateRange,
      ValidationUtils.maxCheck, ValidationUtils.validateLength, ValidationUtils.maxLengthCheck,
      ValidationUtils.lengthUnit, ValidationUtils.createPatternError, jsOr, jsTypeof, getProp,
      JSValue.isArray, JSValue.isUndef, JSValue.isDateConvertible, JSNum.lt, JSNum.le,
      JSNum.isNaN, JSNum.isInteger, JSNum.toJSString, ratToString, timeClip, ratTrunc,
      countFactor, padLeftZeros, Schema.string, Schema.number, Schema.boolean, Schema.date,
      Schema.array, Schema.object, Schema.union, Validator.withMessage,
      Validator.setCustomMessage, Validator.optional, Validator.optionalFlag,
      Validator.customMessage, ObjectValidator.strict, ArrayValidator.nonEmpty,
      NumberValidator.min, NumberValidator.max, NumberValidator.integer,
      NumberValidator.positive, LengthConstrainedValidator.minLength,
      LengthConstrainedValidator.maxLength, DateValidator.min, DateValidator.max,
      aggregatedFailure, NumberValidator.firstViolation, platformStub, platform2023,
      itemEntry, fieldEntry, List.filterMap_cons, List.lookup] <;>
    decide

/-- Claim C2 witness: the specification's object-aggregation example — both
declared fields are type-mismatched and each contributes its entry — and an
extra undeclared key is ignored, with the hypothesis discharged at the
concrete schema. -/
theorem objectValidator_field_validation_witness :
    Validator.validate platformStub (Schema.object [("a", Schema.string), ("b", Schema.number)])
      (.obj [("a", .num (.fin 1)), ("b", .str "x")]) =
      { success := false, data := .undef,
        errors := ["Field 'a': Value must be a string", "Field 'b': Value must be a number"] }
    ∧ Validator.validate platformStub (Schema.object [("a", Schema.string), ("b", Schema.number)])
        (.obj [("extra", .bool true), ("a", .num (.fin 1)), ("b", .str "x")]) =
      Validator.validate platformStub (Schema.object [("a", Schema.string), ("b", Schema.number)])
        (.obj [("a", .num (.fin 1)), ("b", .str "x")]) := by
  have h := objectValidator_field_validation platformStub false none
    [("a", Schema.string), ("b", Schema.number)] [("a", .num (.fin 1)), ("b", .str "x")]
  constructor
  · simp only [Schema.object]
    rw [h.1]
    simp [Validator.validate, ArrayValidator.validateItems, ObjectValidator.validateFields,
      UnionValidator.firstSuccess, StringValidator.validate, NumberValidator.validate,
      BooleanValidator.validate, DateValidator.validate, DateValidator.parseDate,
      DateValidator.validateDateRange, Validator.handleOptional, Validator.createError,
      Validator.createSuccess, ValidationUtils.isNullish, ValidationUtils.validateRange,
      ValidationUtils.maxCheck, ValidationUtils.validateLength, ValidationUtils.maxLengthCheck,
      ValidationUtils.lengthUnit, ValidationUtils.createPatternError, jsOr, jsTypeof, getProp,
      JSValue.isArray, JSValue.isUndef, JSValue.isDateConvertible, JSNum.lt, JSNum.le,
      JSNum.isNaN, JSNum.isInteger, JSNum.toJSString, ratToString, timeClip, ratTrunc,
      countFactor, padLeftZeros, Schema.string, Schema.number, Schema.boolean, Schema.date,
      Schema.array, Schema.object, Schema.union, Validator.withMessage,
      Validator.setCustomMessage, Validator.optional, Validator.optionalFlag,
      Validator.customMessage, ObjectValidator.strict, ArrayValidator.nonEmpty,
      NumberValidator.min, NumberValidator.max, NumberValidator.integer,
      NumberValidator.positive, LengthConstrainedValidator.minLength,
      LengthConstrainedValidator.maxLength, DateValidator.min, DateValidator.max,
      aggregatedFailure, NumberValidator.firstViolation, platformStub, platform2023,
      itemEntry, fieldEntry, List.filterMap_cons, List.lookup]
    decide
  · simp only [Schema.object]
    exact h.2 "extra" (.bool true) (by decide)

theorem handleOptional_shape (o : Bool) (x : JSValue) :
    (ValidationUtils.isNullish x = false ∧ ∀ cm, Validator.handleOptional o cm x = none) ∨
    (ValidationUtils.isNullish x = true ∧
      ∀ cm, Validator.handleOptional o cm x = some (Validator.createSuccess .undef)) ∨
    (ValidationUtils.isNullish x = true ∧
      ∀ cm, Validator.handleOptional o cm x = some (Validator.createError cm "Value is required")) := by
  by_cases h : ValidationUtils.isNullish x
  · cases o
    · right; right; exact ⟨h, fun cm => by simp [Validator.handleOptional, h]⟩
    · right; left; exact ⟨h, fun cm => by simp [Validator.handleOptional, h]⟩
  · left
    exact ⟨by simpa using h, fun cm => by simp [Validator.handleOptional, h]⟩

theorem stringValidator_validate_shape (o : Bool) (mn mx : Option JSNum)
    (pat : Option (String → Bool)) (x : JSValue) :
    (∃ dta, ∀ cm, StringValidator.validate o cm mn mx pat x = Validator.createSuccess dta) ∨
    (∃ d, ∀ cm, StringValidator.validate o cm mn mx pat x = Validator.createError cm d) := by
  rcases handleOptional_shape o x with ⟨-, h⟩ | ⟨-, h⟩ | ⟨-, h⟩
  · cases x
    case str s =>
      cases hl : ValidationUtils.validateLength s.length mn mx "String" with
      | some e => right; exact ⟨e, fun cm => by simp [StringValidator.validate, h, hl]⟩
      | none =>
        cases pat with
        | none => left; exact ⟨.str s, fun cm => by simp [StringValidator.validate, h, hl]⟩
        | some p =>
          by_cases hp : p s
          · left; exact ⟨.str s, fun cm => by simp [StringValidator.validate, h, hl, hp]⟩
          · right
            exact ⟨ValidationUtils.createPatternError, fun cm => by
              simp [StringValidator.validate, h, hl, hp]⟩
    all_goals
      right
      exact ⟨"Value must be a string", fun cm => by simp [StringValidator.validate, h]⟩
  · left; exact ⟨.undef, fun cm => by simp [StringValidator.validate, h]⟩
  · right; exact ⟨"Value is required", fun cm => by simp [StringValidator.validate, h]⟩

theorem numberValidator_validate_shape (o : Bool) (mn mx : Option JSNum) (i p : Bool) (x : JSValue) :
    (∃ dta, ∀ cm, NumberValidator.validate o cm mn mx i p x = Validator.createSuccess dta) ∨
    (∃ d, ∀ cm, NumberValidator.validate o cm mn mx i p x = Validator.createError cm d) := by
  rcases handleOptional_shape o x with ⟨-, h⟩ | ⟨-, h⟩ | ⟨-, h⟩
  · cases x
    case num n =>
      by_cases hn : n.isNaN
      · right; exact ⟨"Value must be a number", fun cm => by
          simp [NumberValidator.validate, h, hn]⟩
      · cases hr : ValidationUtils.validateRange n mn mx "Number" with
        | some e => right; exact ⟨e, fun cm => by
            simp [NumberValidator.validate, h, hn, hr]⟩
        | none =>
          by_cases hi : i && !n.isInteger
          · right; exact ⟨"Number must be an integer", fun cm => by
              simp only [NumberValidator.validate, h, hn, hr, hi, Bool.false_eq_true, if_false,
                if_true]⟩
          · by_cases hp : p && JSNum.le n (.fin 0)
            · right; exact ⟨"Number must be positive", fun cm => by
                simp only [NumberValidator.validate, h, hn, hr, hi, hp, Bool.false_eq_true,
                  if_false, if_true]⟩
            · left; exact ⟨.num n, fun cm => by
                simp only [NumberValidator.validate, h, hn, hr, hi, hp, Bool.false_eq_true,
                  if_false]⟩
    all_goals
      right
      exact ⟨"Value must be a number", fun cm => by simp [NumberValidator.validate, h]⟩
  · left; exact ⟨.undef, fun cm => by simp [NumberValidator.validate, h]⟩
  · right; exact ⟨"Value is required", fun cm => by simp [NumberValidator.validate, h]⟩

theorem booleanValidator_validate_shape (o : Bool) (x : JSValue) :
    (∃ dta, ∀ cm, BooleanValidator.validate o cm x = Validator.createSuccess dta) ∨
    (∃ d, ∀ cm, BooleanValidator.validate o cm x = Validator.createError cm d) := by
  rcases handleOptional_shape o x with ⟨-, h⟩ | ⟨-, h⟩ | ⟨-, h⟩
  · cases x
    case bool b => left; exact ⟨.bool b, fun cm => by simp [BooleanValidator.validate, h]⟩
    all_goals
      right
      exact ⟨"Value must be a boolean", fun cm => by simp [BooleanValidator.validate, h]⟩
  · left; exact ⟨.undef, fun cm => by simp [BooleanValidator.validate, h]⟩
  · right; exact ⟨"Value is required", fun cm => by simp [BooleanValidator.validate, h]⟩

theorem literalValidator_validate_shape (o : Bool) (value : LiteralValue) (x : JSValue) :
    (∃ dta, ∀ cm, LiteralValidator.validate o cm value x = Validator.createSuccess dta) ∨
    (∃ d, ∀ cm, LiteralValidator.validate o cm value x = Validator.createError cm d) := by
  rcases handleOptional_shape o x with ⟨-, h⟩ | ⟨-, h⟩ | ⟨-, h⟩
  · by_cases he : jsStrictEq x value.toJSValue
    · left; exact ⟨x, fun cm => by simp [LiteralValidator.validate, h, he]⟩
    · right
      exact ⟨"Value must be exactly " ++ value.render, fun cm => by
        simp [LiteralValidator.validate, h, he]⟩
  · left; exact ⟨.undef, fun cm => by simp [LiteralValidator.validate, h]⟩
  · right; exact ⟨"Value is required", fun cm => by simp [LiteralValidator.validate, h]⟩

theorem dateValidator_parseDate_shape (P : JSPlatform) (x : JSValue) :
    (∃ t, ∀ cm, DateValidator.parseDate P cm x = Validator.createSuccess (.date t)) ∨
    (∃ d, ∀ cm, DateValidator.parseDate P cm x = Validator.createError cm d) := by
  cases x
  case date t =>
    by_cases hn : t.isNaN
    · right; exact ⟨"Value must be a valid date", fun cm => by simp [DateValidator.parseDate, hn]⟩
    · left; exact ⟨t, fun cm => by simp [DateValidator.parseDate, hn]⟩
  case str s =>
    by_cases hn : (P.parseDateString s).isNaN
    · right; exact ⟨"Value must be a valid date", fun cm => by simp [DateValidator.parseDate, hn]⟩
    · left; exact ⟨P.parseDateString s, fun cm => by simp [DateValidator.parseDate, hn]⟩
  case num q =>
    by_cases hn : (timeClip q).isNaN
    · right; exact ⟨"Value must be a valid date", fun cm => by simp [DateValidator.parseDate, hn]⟩
    · left; exact ⟨timeClip q, fun cm => by simp [DateValidator.parseDate, hn]⟩
  all_goals
    right
    exact ⟨"Value must be a Date, string, or number", fun cm => by simp [DateValidator.parseDate]⟩

theorem dateValidator_validate_shape (P : JSPlatform) (o : Bool) (mnD mxD : Option JSNum) (x : JSValue) :
    (∃ dta, ∀ cm, DateValidator.validate P o cm mnD mxD x = Validator.createSuccess dta) ∨
    (∃ d, ∀ cm, DateValidator.validate P o cm mnD mxD x = Validator.createError cm d) := by
  rcases handleOptional_shape o x with ⟨-, h⟩ | ⟨-, h⟩ | ⟨-, h⟩
  · rcases dateValidator_parseDate_shape P x with ⟨t, hp⟩ | ⟨d, hp⟩
    · cases hr : DateValidator.validateDateRange P mnD mxD t with
      | some e => right; exact ⟨e, fun cm => by
          simp [DateValidator.validate, h, hp, hr, Validator.createSuccess]⟩
      | none => left; exact ⟨.date t, fun cm => by
          simp [DateValidator.validate, h, hp, hr, Validator.createSuccess]⟩
    · right; exact ⟨d, fun cm => by
        simp [DateValidator.validate, h, hp, Validator.createError]⟩
  · left; exact ⟨.undef, fun cm => by simp [DateValidator.validate, h]⟩
  · right; exact ⟨"Value is required", fun cm => by simp [DateValidator.validate, h]⟩

theorem aggregatedFailure_string (P : JSPlatform) (o : Bool) (m0 : Option String)
    (mn mx : Option JSNum) (pat : Option (String → Bool)) (x : JSValue) :
    aggregatedFailure P (.string o m0 mn mx pat) x = false := by
  cases x <;> rfl

theorem aggregatedFailure_number (P : JSPlatform) (o : Bool) (m0 : Option String)
    (mn mx : Option JSNum) (i p : Bool) (x : JSValue) :
    aggregatedFailure P (.number o m0 mn mx i p) x = false := by
  cases x <;> rfl

theorem aggregatedFailure_boolean (P : JSPlatform) (o : Bool) (m0 : Option String) (x : JSValue) :
    aggregatedFailure P (.boolean o m0) x = false := by
  cases x <;> rfl

theorem aggregatedFailure_date (P : JSPlatform) (o : Bool) (m0 : Option String)
    (mnD mxD : Option JSNum) (x : JSValue) :
    aggregatedFailure P (.date o m0 mnD mxD) x = false := by
  cases x <;> rfl

theorem aggregatedFailure_union (P : JSPlatform) (o : Bool) (m0 : Option String)
    (vs : List Validator) (x : JSValue) :
    aggregatedFailure P (.union o m0 vs) x = false := by
  cases x <;> rfl

theorem aggregatedFailure_literal (P : JSPlatform) (o : Bool) (m0 : Option String)
    (value : LiteralValue) (x : JSValue) :
    aggregatedFailure P (.literal o m0 value) x = false := by
  cases x <;> rfl

theorem aggregatedFailure_of_nullish (P : JSPlatform) (v : Validator) (x : JSValue)
    (hx : ValidationUtils.isNullish x = true) : aggregatedFailure P v x = false := by
  cases x <;> simp [ValidationUtils.isNullish] at hx <;> cases v <;> rfl

theorem ownFailureMessageCase {m d : String} (him : m.isEmpty = false)
    {agg : Bool} (hagg : agg = false) :
    ((Validator.createError (some m) d).success = (Validator.createError none d).success)
    ∧ ((Validator.createError none d).success = false →
        if agg = true then
          (Validator.createError (some m) d).errors = (Validator.createError none d).errors
        else
          (Validator.createError (some m) d).errors = [m]
          ∧ ∃ e, (Validator.createError none d).errors = [e]) := by
  subst hagg
  exact ⟨rfl, fun _ => by simp [Validator.createError, jsOr, him]⟩

theorem ownSuccessCase {agg : Bool} {m : String} {r : ValidationResult} (hr : r.success = true) :
    (r.success = r.success) ∧ (r.success = false →
      if agg = true then r.errors = r.errors else r.errors = [m] ∧ ∃ e, r.errors = [e]) :=
  ⟨rfl, fun hf => absurd (hr ▸ hf) (by decide)⟩

theorem aggregatedCase {m : String} {r : ValidationResult} {agg : Bool} (hagg : agg = true) :
    (r.success = r.success) ∧ (r.success = false →
      if agg = true then r.errors = r.errors else r.errors = [m] ∧ ∃ e, r.errors = [e]) :=
  ⟨rfl, fun _ => by simp [hagg]⟩

theorem UnionValidator.firstSuccess_mem (P : JSPlatform) (x : JSValue) :
    ∀ (vs : List Validator) (r : ValidationResult), UnionValidator.firstSuccess P x vs = some r →
      ∃ w ∈ vs, r = Validator.validate P w x ∧ r.success = true := by
  intro vs
  induction vs with
  | nil => intro r h; simp [UnionValidator.firstSuccess] at h
  | cons w ws ih =>
    intro r h
    simp only [UnionValidator.firstSuccess] at h
    by_cases hs : (Validator.validate P w x).success
    · simp only [hs, if_true] at h
      obtain rfl : Validator.validate P w x = r := by simpa using h
      exact ⟨w, List.mem_cons_self _ _, rfl, hs⟩
    · simp only [hs, Bool.false_eq_true, if_false] at h
      obtain ⟨u, hu, hru, hrs⟩ := ih r h
      exact ⟨u, List.mem_cons_of_mem _ hu, hru, hrs⟩

/-- Claim C3 (amended): for every validator with a nonempty custom message
configured and every input on which that same validator itself fails
(presence, type, or constraint failure — always a single default message),
the returned errors hold the custom message in place of the default
message; for composite validators the custom message never replaces or
alters child errors surfaced through aggregation — the aggregated error
list is identical with or without the custom message — and success
behaviour is unchanged. -/
theorem customMessage_replaces_own_failure_message (P : JSPlatform) (v : Validator)
    (m : String) (x : JSValue) (hm : m ≠ "") :
    ((Validator.validate P (Validator.setCustomMessage v (some m)) x).success =
      (Validator.validate P (Validator.setCustomMessage v none) x).success)
    ∧ ((Validator.validate P (Validator.setCustomMessage v none) x).success = false →
        if aggregatedFailure P v x = true then
          (Validator.validate P (Validator.setCustomMessage v (some m)) x).errors =
            (Validator.validate P (Validator.setCustomMessage v none) x).errors
        else
          (Validator.validate P (Validator.setCustomMessage v (some m)) x).errors = [m]
          ∧ ∃ d, (Validator.validate P (Validator.setCustomMessage v none) x).errors = [d]) := by
  have him : m.isEmpty = false := by
    cases hb : m.isEmpty
    · rfl
    · exact absurd ((String.isEmpty_iff m).mp hb) hm
  cases v with
  | string o m0 mn mx pat =>
    simp only [Validator.setCustomMessage, Validator.validate]
    rcases stringValidator_validate_shape o mn mx pat x with ⟨dta, hs⟩ | ⟨d, he⟩
    · rw [hs (some m), hs none]
      exact ownSuccessCase rfl
    · rw [he (some m), he none]
      exact ownFailureMessageCase him (aggregatedFailure_string P o m0 mn mx pat x)
  | number o m0 mn mx i p =>
    simp only [Validator.setCustomMessage, Validator.validate]
    rcases numberValidator_validate_shape o mn mx i p x with ⟨dta, hs⟩ | ⟨d, he⟩
    · rw [hs (some m), hs none]
      exact ownSuccessCase rfl
    · rw [he (some m), he none]
      exact ownFailureMessageCase him (aggregatedFailure_number P o m0 mn mx i p x)
  | boolean o m0 =>
    simp only [Validator.setCustomMessage, Validator.validate]
    rcases booleanValidator_validate_shape o x with ⟨dta, hs⟩ | ⟨d, he⟩
    · rw [hs (some m), hs none]
      exact ownSuccessCase rfl
    · rw [he (some m), he none]
      exact ownFailureMessageCase him (aggregatedFailure_boolean P o m0 x)
  | date o m0 mnD mxD =>
    simp only [Validator.setCustomMessage, Validator.validate]
    rcases dateValidator_validate_shape P o mnD mxD x with ⟨dta, hs⟩ | ⟨d, he⟩
    · rw [hs (some m), hs none]
      exact ownSuccessCase rfl
    · rw [he (some m), he none]
      exact ownFailureMessageCase him (aggregatedFailure_date P o m0 mnD mxD x)
  | array o m0 mn mx it =>
    simp only [Validator.setCustomMessage]
    rcases handleOptional_shape o x with ⟨hnn, h⟩ | ⟨hnull, h⟩ | ⟨hnull, h⟩
    · cases x
      case arr elems =>
        cases hl : ValidationUtils.validateLength elems.length mn mx "Array" with
        | some e =>
          have key : ∀ cm, Validator.validate P (.array o cm mn mx it) (.arr elems) =
              Validator.createError cm e := by
            intro cm
            simp only [Validator.validate, h, hl]
          rw [key (some m), key none]
          exact ownFailureMessageCase him (by simp [aggregatedFailure, hl])
        | none =>
          by_cases hE : (ArrayValidator.validateItems P it 0 elems).2.length > 0
          · have key : ∀ cm, Validator.validate P (.array o cm mn mx it) (.arr elems) =
                { success := false, data := .undef,
                  errors := (ArrayValidator.validateItems P it 0 elems).2 } := by
              intro cm
              simp only [Validator.validate, h, hl]
              rw [if_pos hE]
            have hni : (ArrayValidator.validateItems P it 0 elems).2.isEmpty = false := by
              cases hE2 : (ArrayValidator.validateItems P it 0 elems).2 with
              | nil => rw [hE2] at hE; simp at hE
              | cons a l => rfl
            rw [key (some m), key none]
            exact aggregatedCase (by simp [aggregatedFailure, hl, hni])
          · have key : ∀ cm, Validator.validate P (.array o cm mn mx it) (.arr elems) =
                Validator.createSuccess (.arr (ArrayValidator.validateItems P it 0 elems).1) := by
              intro cm
              simp only [Validator.validate, h, hl]
              rw [if_neg hE]
            rw [key (some m), key none]
            exact ownSuccessCase rfl
      all_goals
        simp only [Validator.validate, h]
        exact ownFailureMessageCase him (by rfl)
    · cases x
      case null =>
        have key : ∀ cm, Validator.validate P (.array o cm mn mx it) .null =
            Validator.createSuccess .undef := by
          intro cm
          simp [Validator.validate, h]
        rw [key (some m), key none]
        exact ownSuccessCase rfl
      case undef =>
        have key : ∀ cm, Validator.validate P (.array o cm mn mx it) .undef =
            Validator.createSuccess .undef := by
          intro cm
          simp [Validator.validate, h]
        rw [key (some m), key none]
        exact ownSuccessCase rfl
      all_goals simp [ValidationUtils.isNullish] at hnull
    · cases x
      case null =>
        have key : ∀ cm, Validator.validate P (.array o cm mn mx it) .null =
            Validator.createError cm "Value is required" := by
          intro cm
          simp [Validator.validate, h]
        rw [key (some m), key none]
        exact ownFailureMessageCase him (aggregatedFailure_of_nullish P _ _ hnull)
      case undef =>
        have key : ∀ cm, Validator.validate P (.array o cm mn mx it) .undef =
            Validator.createError cm "Value is required" := by
          intro cm
          simp [Validator.validate, h]
        rw [key (some m), key none]
        exact ownFailureMessageCase him (aggregatedFailure_of_nullish P _ _ hnull)
      all_goals simp [ValidationUtils.isNullish] at hnull
  | object o m0 schema =>
    simp only [Validator.setCustomMessage]
    rcases handleOptional_shape o x with ⟨hnn, h⟩ | ⟨hnull, h⟩ | ⟨hnull, h⟩
    · by_cases ht : (jsTypeof x != "object" || JSValue.isArray x) = true
      · have key : ∀ cm, Validator.validate P (.object o cm schema) x =
            Validator.createError cm "Value must be an object" := by
          intro cm
          simp only [Validator.validate, h]
          rw [if_pos ht]
        have hmid : (jsTypeof x == "object" && !JSValue.isArray x) = false := by
          cases hjt : (jsTypeof x == "object") <;> cases hia : JSValue.isArray x <;>
            simp_all [bne]
        rw [key (some m), key none]
        exact ownFailureMessageCase him (by simp [aggregatedFailure, hmid])
      · have htf : (jsTypeof x != "object" || JSValue.isArray x) = false := by
          cases hb : (jsTypeof x != "object" || JSValue.isArray x)
          · rfl
          · exact absurd hb ht
        have hmid : (jsTypeof x == "object" && !JSValue.isArray x) = true := by
          cases hjt : (jsTypeof x == "object") <;> cases hia : JSValue.isArray x <;>
            simp_all [bne]
        by_cases hF : (ObjectValidator.validateFields P x schema).2.length > 0
        · have key : ∀ cm, Validator.validate P (.object o cm schema) x =
              { success := false, data := .undef,
                errors := (ObjectValidator.validateFields P x schema).2 } := by
            intro cm
            simp only [Validator.validate, h, htf, Bool.false_eq_true, if_false]
            rw [if_pos hF]
          have hni : (ObjectValidator.validateFields P x schema).2.isEmpty = false := by
            cases hF2 : (ObjectValidator.validateFields P x schema).2 with
            | nil => rw [hF2] at hF; simp at hF
            | cons a l => rfl
          rw [key (some m), key none]
          exact aggregatedCase (by simp [aggregatedFailure, hnn, hmid, hni])
        · have key : ∀ cm, Validator.validate P (.object o cm schema) x =
              Validator.createSuccess (.obj (ObjectValidator.validateFields P x schema).1) := by
            intro cm
            simp only [Validator.validate, h, htf, Bool.false_eq_true, if_false]
            rw [if_neg hF]
          rw [key (some m), key none]
          exact ownSuccessCase rfl
    · have key : ∀ cm, Validator.validate P (.object o cm schema) x =
          Validator.createSuccess .undef := by
        intro cm
        simp only [Validator.validate, h]
      rw [key (some m), key none]
      exact ownSuccessCase rfl
    · have key : ∀ cm, Validator.validate P (.object o cm schema) x =
          Validator.createError cm "Value is required" := by
        intro cm
        simp only [Validator.validate, h]
      rw [key (some m), key none]
      exact ownFailureMessageCase him (aggregatedFailure_of_nullish P _ x hnull)
  | union o m0 vs =>
    simp only [Validator.setCustomMessage]
    rcases handleOptional_shape o x with ⟨hnn, h⟩ | ⟨hnull, h⟩ | ⟨hnull, h⟩
    · cases hu : UnionValidator.firstSuccess P x vs with
      | some r =>
        have key : ∀ cm, Validator.validate P (.union o cm vs) x = r := by
          intro cm
          simp only [Validator.validate, h, hu]
        obtain ⟨w, hw, hrw, hrs⟩ := UnionValidator.firstSuccess_mem P x vs r hu
        rw [key (some m), key none]
        exact ownSuccessCase hrs
      | none =>
        have key : ∀ cm, Validator.validate P (.union o cm vs) x =
            Validator.createError cm "Value does not match any of the allowed types" := by
          intro cm
          simp only [Validator.validate, h, hu]
        rw [key (some m), key none]
        exact ownFailureMessageCase him (aggregatedFailure_union P o m0 vs x)
    · have key : ∀ cm, Validator.validate P (.union o cm vs) x =
          Validator.createSuccess .undef := by
        intro cm
        simp only [Validator.validate, h]
      rw [key (some m), key none]
      exact ownSuccessCase rfl
    · have key : ∀ cm, Validator.validate P (.union o cm vs) x =
          Validator.createError cm "Value is required" := by
        intro cm
        simp only [Validator.validate, h]
      rw [key (some m), key none]
      exact ownFailureMessageCase him (aggregatedFailure_of_nullish P _ x hnull)
  | literal o m0 value =>
    simp only [Validator.setCustomMessage, Validator.validate]
    rcases literalValidator_validate_shape o value x with ⟨dta, hs⟩ | ⟨d, he⟩
    · rw [hs (some m), hs none]
      exact ownSuccessCase rfl
    · rw [he (some m), he none]
      exact ownFailureMessageCase him (aggregatedFailure_literal P o m0 value x)

/-- Claim C3 counterexample, against the claim as stated: with the custom
message configured as the empty string, a type failure of the same
validator keeps the default message — the source computes
`this._customMessage || message` and the empty string is falsy — so the
configured custom message is not used in its place. -/
theorem customMessage_empty_string_keeps_default :
    (Validator.validate platformStub (Validator.withMessage Schema.boolean "")
      (.num (.fin 1))).errors = ["Value must be a boolean"]
    ∧ (Validator.validate platformStub (Validator.withMessage Schema.boolean "")
      (.num (.fin 1))).errors ≠ [""] := by
  refine ⟨?_, ?_⟩ <;>
    simp [Validator.validate, BooleanValidator.validate, Validator.withMessage,
      Validator.setCustomMessage, Schema.boolean, Validator.handleOptional,
      ValidationUtils.isNullish, Validator.createError, jsOr, platformStub] <;>
    all_goals decide

/-- Claim C3 witness: a boolean validator with the nonempty custom message
"custom" fails on a number input with exactly that message, obtained by
applying the general statement at this input and discharging its
hypotheses there. -/
theorem customMessage_replaces_own_failure_message_witness :
    (Validator.validate platformStub (Validator.setCustomMessage Schema.boolean (some "custom"))
      (.num (.fin 1))).errors = ["custom"]
    ∧ (Validator.validate platformStub
        (Validator.setCustomMessage (Schema.literal (.str "active")) (some "custom"))
        (.str "other")).errors = ["custom"] := by
  refine ⟨?_, ?_⟩
  · have h := customMessage_replaces_own_failure_message platformStub Schema.boolean "custom"
      (.num (.fin 1)) (by decide)
    have h0 : (Validator.validate platformStub (Validator.setCustomMessage Schema.boolean none)
        (.num (.fin 1))).success = false := by
      simp [Validator.validate, BooleanValidator.validate, Validator.setCustomMessage,
        Schema.boolean, Validator.handleOptional, ValidationUtils.isNullish,
        Validator.createError, jsOr, platformStub]
    have h2 := h.2 h0
    simp only [Schema.boolean] at h2
    rw [aggregatedFailure_boolean] at h2
    simp at h2
    exact h2.1
  · have h := customMessage_replaces_own_failure_message platformStub
      (Schema.literal (.str "active")) "custom" (.str "other") (by decide)
    have h0 : (Validator.validate platformStub
        (Validator.setCustomMessage (Schema.literal (.str "active")) none)
        (.str "other")).success = false := by
      simp [Validator.validate, LiteralValidator.validate, Validator.setCustomMessage,
        Schema.literal, Validator.handleOptional, ValidationUtils.isNullish, jsStrictEq,
        JSNum.strictEq, LiteralValue.toJSValue, LiteralValue.render, Validator.createError,
        jsOr, platformStub]
    have h2 := h.2 h0
    simp only [Schema.literal] at h2
    rw [aggregatedFailure_literal] at h2
    simp at h2
    exact h2.1

theorem Validator.validate_string_eq (P : JSPlatform) (o : Bool) (m : Option String)
    (mn mx : Option JSNum) (pat : Option (String → Bool)) (x : JSValue) :
    Validator.validate P (.string o m mn mx pat) x = StringValidator.validate o m mn mx pat x := by
  simp only [Validator.validate]

theorem Validator.validate_number_eq (P : JSPlatform) (o : Bool) (m : Option String)
    (mn mx : Option JSNum) (i p : Bool) (x : JSValue) :
    Validator.validate P (.number o m mn mx i p) x = NumberValidator.validate o m mn mx i p x := by
  simp only [Validator.validate]

theorem Validator.validate_boolean_eq (P : JSPlatform) (o : Bool) (m : Option String) (x : JSValue) :
    Validator.validate P (.boolean o m) x = BooleanValidator.validate o m x := by
  simp only [Validator.validate]

theorem Validator.validate_date_eq (P : JSPlatform) (o : Bool) (m : Option String)
    (mnD mxD : Option JSNum) (x : JSValue) :
    Validator.validate P (.date o m mnD mxD) x = DateValidator.validate P o m mnD mxD x := by
  simp only [Validator.validate]

theorem Validator.validate_literal_eq (P : JSPlatform) (o : Bool) (m : Option String)
    (value : LiteralValue) (x : JSValue) :
    Validator.validate P (.literal o m value) x = LiteralValidator.validate o m value x := by
  simp only [Validator.validate]

theorem Validator.validate_array_eq (P : JSPlatform) (o : Bool) (m : Option String)
    (mn mx : Option JSNum) (it : Validator) (value : JSValue) :
    Validator.validate P (.array o m mn mx it) value =
      (match Validator.handleOptional o m value with
       | some r => r
       | none =>
         match value with
         | .arr elems =>
           (match ValidationUtils.validateLength elems.length mn mx "Array" with
            | some e => Validator.createError m e
            | none =>
              if (ArrayValidator.validateItems P it 0 elems).2.length > 0 then
                { success := false, data := .undef,
                  errors := (ArrayValidator.validateItems P it 0 elems).2 }
              else Validator.createSuccess (.arr (ArrayValidator.validateItems P it 0 elems).1))
         | _ => Validator.createError m "Value must be an array") := by
  cases hopt : Validator.handleOptional o m value with
  | some r => cases value <;> simp only [Validator.validate, hopt]
  | none =>
    cases value with
    | arr elems =>
      cases hl : ValidationUtils.validateLength elems.length mn mx "Array" with
      | some e => simp only [Validator.validate, hopt, hl]
      | none => simp only [Validator.validate, hopt, hl]
    | null => simp only [Validator.validate, hopt]
    | undef => simp only [Validator.validate, hopt]
    | str s => simp only [Validator.validate, hopt]
    | num n => simp only [Validator.validate, hopt]
    | bool b => simp only [Validator.validate, hopt]
    | date t => simp only [Validator.validate, hopt]
    | obj fields => simp only [Validator.validate, hopt]

theorem Validator.validate_object_eq (P : JSPlatform) (o : Bool) (m : Option String)
    (schema : List (String × Validator)) (value : JSValue) :
    Validator.validate P (.object o m schema) value =
      (match Validator.handleOptional o m value with
       | some r => r
       | none =>
         if jsTypeof value != "object" || JSValue.isArray value then
           Validator.createError m "Value must be an object"
         else if (ObjectValidator.validateFields P value schema).2.length > 0 then
           { success := false, data := .undef,
             errors := (ObjectValidator.validateFields P value schema).2 }
         else Validator.createSuccess (.obj (ObjectValidator.validateFields P value schema).1)) := by
  cases hopt : Validator.handleOptional o m value with
  | some r => simp only [Validator.validate, hopt]
  | none =>
    by_cases ht : (jsTypeof value != "object" || JSValue.isArray value) = true
    · simp only [Validator.validate, hopt, ht, if_true]
    · have htf : (jsTypeof value != "object" || JSValue.isArray value) = false := by
        cases hb : (jsTypeof value != "object" || JSValue.isArray value)
        · rfl
        · exact absurd hb ht
      simp only [Validator.validate, hopt, htf, Bool.false_eq_true, if_false]

theorem Validator.validate_union_eq (P : JSPlatform) (o : Bool) (m : Option String)
    (vs : List Validator) (value : JSValue) :
    Validator.validate P (.union o m vs) value =
      (match Validator.handleOptional o m value with
       | some r => r
       | none =>
         match UnionValidator.firstSuccess P value vs with
         | some r => r
         | none => Validator.createError m "Value does not match any of the allowed types") := by
  cases hopt : Validator.handleOptional o m value with
  | some r => simp only [Validator.validate, hopt]
  | none =>
    cases hu : UnionValidator.firstSuccess P value vs with
    | some r => simp only [Validator.validate, hopt, hu]
    | none => simp only [Validator.validate, hopt, hu]

/-- Claim C4 (amended): for every validator kind and for input null or
undefined: if optional() was set, validate returns success with data
undefined; otherwise it fails with the single error "Value is required" —
or the custom message when a nonempty one is set (an empty custom message
falls back to the default, as the source applies `customMessage ||
message`). -/
theorem nullish_input_required_or_optional (P : JSPlatform) (v : Validator) (x : JSValue)
    (hx : ValidationUtils.isNullish x = true) :
    Validator.validate P v x =
      (if v.optionalFlag then { success := true, data := .undef, errors := [] }
       else { success := false, data := .undef,
              errors := [jsOr v.customMessage "Value is required"] }) := by
  have hopt : ∀ (o : Bool) (cm : Option String), Validator.handleOptional o cm x =
      some (if o then { success := true, data := .undef, errors := [] }
            else { success := false, data := .undef, errors := [jsOr cm "Value is required"] }) := by
    intro o cm
    cases o <;> simp [Validator.handleOptional, hx, Validator.createError, Validator.createSuccess]
  cases v with
  | string o cm mn mx pat =>
    rw [Validator.validate_string_eq]
    cases o <;> simp [StringValidator.validate, hopt, Validator.optionalFlag, Validator.customMessage]
  | number o cm mn mx i p =>
    rw [Validator.validate_number_eq]
    cases o <;> simp [NumberValidator.validate, hopt, Validator.optionalFlag, Validator.customMessage]
  | boolean o cm =>
    rw [Validator.validate_boolean_eq]
    cases o <;> simp [BooleanValidator.validate, hopt, Validator.optionalFlag, Validator.customMessage]
  | date o cm mnD mxD =>
    rw [Validator.validate_date_eq]
    cases o <;> simp [DateValidator.validate, hopt, Validator.optionalFlag, Validator.customMessage]
  | array o cm mn mx it =>
    rw [Validator.validate_array_eq]
    cases o <;> simp [hopt, Validator.optionalFlag, Validator.customMessage]
  | object o cm schema =>
    rw [Validator.validate_object_eq]
    cases o <;> simp [hopt, Validator.optionalFlag, Validator.customMessage]
  | union o cm vs =>
    rw [Validator.validate_union_eq]
    cases o <;> simp [hopt, Validator.optionalFlag, Validator.customMessage]
  | literal o cm value =>
    rw [Validator.validate_literal_eq]
    cases o <;>
      simp [LiteralValidator.validate, hopt, Validator.optionalFlag, Validator.customMessage]

/-- Claim C4 witness: the specification's primitive example — a string
validator rejects undefined with "Value is required" without optional()
and accepts it with data undefined once optional() is set — with the
nullish hypothesis discharged at the concrete input. -/
theorem nullish_input_required_or_optional_witness :
    ValidationUtils.isNullish .undef = true ∧
    Validator.validate platformStub Schema.string .undef =
      { success := false, data := .undef, errors := ["Value is required"] } ∧
    Validator.validate platformStub (Validator.optional Schema.string) .undef =
      { success := true, data := .undef, errors := [] } ∧
    Validator.validate platformStub (Schema.literal (.str "active")) .null =
      { success := false, data := .undef, errors := ["Value is required"] } := by
  refine ⟨rfl, ?_, ?_, ?_⟩
  · rw [nullish_input_required_or_optional platformStub Schema.string .undef rfl]
    simp [Schema.string, Validator.optionalFlag, Validator.customMessage, jsOr]
  · rw [nullish_input_required_or_optional platformStub (Validator.optional Schema.string) .undef rfl]
    simp [Schema.string, Validator.optional, Validator.optionalFlag]
  · rw [nullish_input_required_or_optional platformStub (Schema.literal (.str "active")) .null rfl]
    simp [Schema.literal, Validator.optionalFlag, Validator.customMessage, jsOr]

/-- Claim C4 counterexample, against the claim as stated: a validator whose
custom message is set to the empty string still fails on null with the
default "Value is required" rather than with the configured (empty) custom
message. -/
theorem nullish_input_empty_custom_message :
    (Validator.validate platformStub (Validator.withMessage Schema.string "") .null).errors
      = ["Value is required"]
    ∧ (Validator.validate platformStub (Validator.withMessage Schema.string "") .null).errors
      ≠ [""] := by
  refine ⟨?_, ?_⟩ <;>
    simp [Validator.validate, StringValidator.validate, Validator.withMessage,
      Validator.setCustomMessage, Schema.string, Validator.handleOptional,
      ValidationUtils.isNullish, Validator.createError, jsOr, platformStub] <;>
    all_goals decide

theorem UnionValidator.firstSuccess_eq_find (P : JSPlatform) (x : JSValue) :
    ∀ vs : List Validator, UnionValidator.firstSuccess P x vs =
      (vs.map (fun w => Validator.validate P w x)).find? (·.success) := by
  intro vs
  induction vs with
  | nil => simp [UnionValidator.firstSuccess]
  | cons w ws ih =>
    by_cases hs : (Validator.validate P w x).success <;>
      simp [UnionValidator.firstSuccess, List.find?, hs, ih]

/-- Claim C5 (amended): for every union validator and every non-nullish
input, validate iterates the ordered alternative list and returns the first
succeeding alternative's result verbatim (including its transformed data);
if no alternative succeeds it fails with a single error — the generic
message "Value does not match any of the allowed types", or the
validator's custom message when a nonempty one is configured — discarding
all alternative-specific errors regardless of alternative order. -/
theorem unionValidator_first_success_or_generic (P : JSPlatform) (o : Bool) (m : Option String)
    (vs : List Validator) (x : JSValue) (hx : ValidationUtils.isNullish x = false) :
    Validator.validate P (.union o m vs) x =
      (match (vs.map (fun w => Validator.validate P w x)).find? (·.success) with
       | some r => r
       | none => { success := false, data := .undef,
                   errors := [jsOr m "Value does not match any of the allowed types"] }) := by
  rw [Validator.validate_union_eq]
  have h : Validator.handleOptional o m x = none := by
    simp [Validator.handleOptional, hx]
  rw [h, ← UnionValidator.firstSuccess_eq_find P x vs]
  cases hu : UnionValidator.firstSuccess P x vs with
  | some r => simp
  | none => simp [Validator.createError]

/-- Claim C5 witness: applied at concrete inputs — a union of string and
number returns the first (string) alternative's result on a string and the
second alternative's success on a number, and with no matching alternative
it fails with the generic message, each hypothesis discharged at the
input. -/
theorem unionValidator_first_success_or_generic_witness :
    Validator.validate platformStub (Schema.union [Schema.string, Schema.number]) (.num (.fin 5)) =
      { success := true, data := .num (.fin 5), errors := [] }
    ∧ Validator.validate platformStub (Schema.union [Schema.string, Schema.number]) (.bool true) =
      { success := false, data := .undef,
        errors := ["Value does not match any of the allowed types"] } := by
  refine ⟨?_, ?_⟩
  · rw [show Schema.union [Schema.string, Schema.number] =
        Validator.union false none [Schema.string, Schema.number] from rfl,
      unionValidator_first_success_or_generic platformStub false none
        [Schema.string, Schema.number] (.num (.fin 5)) rfl]
    simp [Validator.validate, StringValidator.validate, NumberValidator.validate, Schema.string,
      Schema.number, Validator.handleOptional, ValidationUtils.isNullish, Validator.createError,
      Validator.createSuccess, jsOr, platformStub, List.find?, ValidationUtils.validateRange,
      ValidationUtils.maxCheck, ValidationUtils.validateLength, ValidationUtils.maxLengthCheck,
      JSNum.isNaN, JSNum.isInteger, JSNum.le]
  · rw [show Schema.union [Schema.string, Schema.number] =
        Validator.union false none [Schema.string, Schema.number] from rfl,
      unionValidator_first_success_or_generic platformStub false none
        [Schema.string, Schema.number] (.bool true) rfl]
    simp [Validator.validate, StringValidator.validate, NumberValidator.validate, Schema.string,
      Schema.number, Validator.handleOptional, ValidationUtils.isNullish, Validator.createError,
      Validator.createSuccess, jsOr, platformStub, List.find?]

/-- Claim C5 counterexample, against the claim as stated: a union validator
with the nonempty custom message "boom" and no matching alternative fails
with ["boom"], not with the generic "Value does not match any of the
allowed types". -/
theorem unionValidator_custom_message_overrides_generic :
    (Validator.validate platformStub
      (Validator.withMessage (Schema.union [Schema.string]) "boom") (.num (.fin 1))).errors
      = ["boom"]
    ∧ (Validator.validate platformStub
      (Validator.withMessage (Schema.union [Schema.string]) "boom") (.num (.fin 1))).errors
      ≠ ["Value does not match any of the allowed types"] := by
  refine ⟨?_, ?_⟩ <;>
    simp [Validator.validate, UnionValidator.firstSuccess, StringValidator.validate,
      Validator.withMessage, Validator.setCustomMessage, Schema.union, Schema.string,
      Validator.handleOptional, ValidationUtils.isNullish, Validator.createError, jsOr,
      platformStub] <;>
    all_goals decide

/-- Claim C6: for every number validator and every input that passes the
type check (typeof number and not NaN), the configured constraints are
evaluated in the fixed order range (min/max, inclusive) → integer →
positive (strictly greater than zero), and the first violated constraint
determines the single error returned (its default message, subject to the
validator's custom-message override). -/
theorem numberValidator_fixed_constraint_order (P : JSPlatform) (o : Bool) (m : Option String)
    (mn mx : Option JSNum) (i p : Bool) (q : JSNum) (hq : q.isNaN = false) :
    Validator.validate P (.number o m mn mx i p) (.num q) =
      (match NumberValidator.firstViolation mn mx i p q with
       | some e => { success := false, data := .undef, errors := [jsOr m e] }
       | none => { success := true, data := .num q, errors := [] }) := by
  rw [Validator.validate_number_eq]
  simp only [NumberValidator.validate, NumberValidator.firstViolation, Validator.handleOptional,
    ValidationUtils.isNullish, Bool.false_eq_true, if_false, hq]
  cases hr : ValidationUtils.validateRange q mn mx "Number" with
  | some e => simp [hr, Validator.createError]
  | none =>
    by_cases hi : i && !q.isInteger
    · simp [hr, hi, Validator.createError]
    · by_cases hp : p && JSNum.le q (.fin 0)
      · simp [hr, hi, hp, Validator.createError]
      · simp [hr, hi, hp, Validator.createSuccess]

/-- Claim C6 witness: the specification's example, with the type-check
hypothesis discharged at each concrete input — min 0 and max 100 reject -1
with "at least 0" and 150 with "no more than 100", and accept 50 with data
50. -/
theorem numberValidator_fixed_constraint_order_witness :
    Validator.validate platformStub (NumberValidator.max (NumberValidator.min Schema.number (.fin 0)) (.fin 100))
      (.num (.fin (-1))) =
      { success := false, data := .undef, errors := ["Number must be at least 0"] }
    ∧ Validator.validate platformStub (NumberValidator.max (NumberValidator.min Schema.number (.fin 0)) (.fin 100))
      (.num (.fin 150)) =
      { success := false, data := .undef, errors := ["Number must be no more than 100"] }
    ∧ Validator.validate platformStub (NumberValidator.max (NumberValidator.min Schema.number (.fin 0)) (.fin 100))
      (.num (.fin 50)) =
      { success := true, data := .num (.fin 50), errors := [] } := by
  have he : NumberValidator.max (NumberValidator.min Schema.number (.fin 0)) (.fin 100) =
      Validator.number false none (some (.fin 0)) (some (.fin 100)) false false := rfl
  refine ⟨?_, ?_, ?_⟩
  · rw [he, numberValidator_fixed_constraint_order platformStub false none
      (some (.fin 0)) (some (.fin 100)) false false (.fin (-1)) rfl]
    norm_num [NumberValidator.firstViolation, ValidationUtils.validateRange,
      ValidationUtils.maxCheck, JSNum.lt, JSNum.toJSString, ratToString, jsOr]
    all_goals decide
  · rw [he, numberValidator_fixed_constraint_order platformStub false none
      (some (.fin 0)) (some (.fin 100)) false false (.fin 150) rfl]
    norm_num [NumberValidator.firstViolation, ValidationUtils.validateRange,
      ValidationUtils.maxCheck, JSNum.lt, JSNum.toJSString, ratToString, jsOr]
    all_goals decide
  · rw [he, numberValidator_fixed_constraint_order platformStub false none
      (some (.fin 0)) (some (.fin 100)) false false (.fin 50) rfl]
    norm_num [NumberValidator.firstViolation, ValidationUtils.validateRange,
      ValidationUtils.maxCheck, JSNum.lt, JSNum.toJSString, ratToString, jsOr]

/-- Claim C10: a number validator with no range, integer or positive
constraints accepts every value of typeof number except NaN — in
particular Infinity and -Infinity — returning success with data equal to
the input. -/
theorem numberValidator_unconstrained_accepts (P : JSPlatform) (o : Bool) (m : Option String)
    (q : JSNum) (hq : q.isNaN = false) :
    Validator.validate P (.number o m none none false false) (.num q) =
      { success := true, data := .num q, errors := [] } := by
  rw [Validator.validate_number_eq]
  simp [NumberValidator.validate, Validator.handleOptional, ValidationUtils.isNullish, hq,
    ValidationUtils.validateRange, ValidationUtils.maxCheck, Validator.createSuccess]

/-- Claim C10 witness: the unconstrained number validator accepts Infinity,
-Infinity and an ordinary finite value, with the NaN hypothesis discharged
at each concrete input. -/
theorem numberValidator_unconstrained_accepts_witness :
    Validator.validate platformStub Schema.number (.num .posInf) =
      { success := true, data := .num .posInf, errors := [] }
    ∧ Validator.validate platformStub Schema.number (.num .negInf) =
      { success := true, data := .num .negInf, errors := [] }
    ∧ Validator.validate platformStub Schema.number (.num (.fin 5)) =
      { success := true, data := .num (.fin 5), errors := [] } :=
  ⟨numberValidator_unconstrained_accepts platformStub false none .posInf rfl,
   numberValidator_unconstrained_accepts platformStub false none .negInf rfl,
   numberValidator_unconstrained_accepts platformStub false none (.fin 5) rfl⟩

/-- Claim C7 (amended): for every date validator with no custom message
configured: a Date object is passed to parsing as-is and a string or
number input is converted via the platform date constructor (number time
values being clipped as the Date constructor does); whatever the
configured bounds, an input that converts to an invalid date fails with
"Value must be a valid date" and an input of any other type fails with
the distinct message "Value must be a Date, string, or number"; and when
no min/max bounds are configured, a valid conversion succeeds with the
converted date as data, so Schema.date().validate("2023-01-01") succeeds
with data equal to new Date("2023-01-01"). -/
theorem dateValidator_parse_behaviour (P : JSPlatform) (o : Bool) :
    (∀ (mnD mxD : Option JSNum) (x : JSValue), ValidationUtils.isNullish x = false →
        x.isDateConvertible = false →
        Validator.validate P (.date o none mnD mxD) x =
          { success := false, data := .undef, errors := ["Value must be a Date, string, or number"] })
    ∧ (∀ (mnD mxD : Option JSNum) (t : JSNum), t.isNaN = true →
        Validator.validate P (.date o none mnD mxD) (.date t) =
          { success := false, data := .undef, errors := ["Value must be a valid date"] })
    ∧ (∀ (mnD mxD : Option JSNum) (s : String), (P.parseDateString s).isNaN = true →
        Validator.validate P (.date o none mnD mxD) (.str s) =
          { success := false, data := .undef, errors := ["Value must be a valid date"] })
    ∧ (∀ (mnD mxD : Option JSNum) (q : JSNum), (timeClip q).isNaN = true →
        Validator.validate P (.date o none mnD mxD) (.num q) =
          { success := false, data := .undef, errors := ["Value must be a valid date"] })
    ∧ (∀ t : JSNum, t.isNaN = false →
        Validator.validate P (.date o none none none) (.date t) =
          { success := true, data := .date t, errors := [] })
    ∧ (∀ s : String, (P.parseDateString s).isNaN = false →
        Validator.validate P (.date o none none none) (.str s) =
          { success := true, data := .date (P.parseDateString s), errors := [] })
    ∧ (∀ q : JSNum, (timeClip q).isNaN = false →
        Validator.validate P (.date o none none none) (.num q) =
          { success := true, data := .date (timeClip q), errors := [] }) := by
  refine ⟨?_, ?_, ?_, ?_, ?_, ?_, ?_⟩
  · intro mnD mxD x hnn hconv
    rw [Validator.validate_date_eq]
    cases x <;> simp_all [JSValue.isDateConvertible, ValidationUtils.isNullish] <;>
      simp [DateValidator.validate, DateValidator.parseDate, Validator.handleOptional,
        ValidationUtils.isNullish, Validator.createError, jsOr]
  · intro mnD mxD t hn
    rw [Validator.validate_date_eq]
    simp [DateValidator.validate, DateValidator.parseDate, Validator.handleOptional,
      ValidationUtils.isNullish, hn, Validator.createError, jsOr]
  · intro mnD mxD s hn
    rw [Validator.validate_date_eq]
    simp [DateValidator.validate, DateValidator.parseDate, Validator.handleOptional,
      ValidationUtils.isNullish, hn, Validator.createError, jsOr]
  · intro mnD mxD q hn
    rw [Validator.validate_date_eq]
    simp [DateValidator.validate, DateValidator.parseDate, Validator.handleOptional,
      ValidationUtils.isNullish, hn, Validator.createError, jsOr]
  · intro t hn
    rw [Validator.validate_date_eq]
    simp [DateValidator.validate, DateValidator.parseDate, DateValidator.validateDateRange,
      Validator.handleOptional, ValidationUtils.isNullish, hn, Validator.createSuccess]
  · intro s hn
    rw [Validator.validate_date_eq]
    simp [DateValidator.validate, DateValidator.parseDate, DateValidator.validateDateRange,
      Validator.handleOptional, ValidationUtils.isNullish, hn, Validator.createSuccess]
  · intro q hn
    rw [Validator.validate_date_eq]
    simp [DateValidator.validate, DateValidator.parseDate, DateValidator.validateDateRange,
      Validator.handleOptional, ValidationUtils.isNullish, hn, Validator.createSuccess]

/-- Claim C7 witness: on a platform whose date constructor parses
"2023-01-01" to the time value 1672531200000, Schema.date() accepts that
string with exactly that Date as data, and rejects a boolean with the
distinct type message, the hypotheses discharged at the concrete inputs. -/
theorem dateValidator_parse_behaviour_witness :
    Validator.validate platform2023 Schema.date (.str "2023-01-01") =
      { success := true, data := .date (.fin 1672531200000), errors := [] }
    ∧ Validator.validate platform2023 Schema.date (.bool true) =
      { success := false, data := .undef, errors := ["Value must be a Date, string, or number"] } := by
  have h := dateValidator_parse_behaviour platform2023 false
  refine ⟨?_, ?_⟩
  · have := h.2.2.2.2.2.1 "2023-01-01" (by simp [platform2023, JSNum.isNaN])
    rw [show Schema.date = Validator.date false none none none from rfl]
    rw [this]
    simp [platform2023]
  · have := h.1 none none (.bool true) rfl rfl
    rw [show Schema.date = Validator.date false none none none from rfl]
    exact this

/-- Claim C7 counterexample, against the claim as stated: a date validator
with a custom message reports that message instead of the distinct
"Value must be a Date, string, or number" on a boolean input, and a date
validator with a min bound rejects a Date object instead of accepting it
as-is. -/
theorem dateValidator_custom_message_and_bounds :
    (Validator.validate platformStub (Validator.withMessage Schema.date "m") (.bool true)).errors
      = ["m"]
    ∧ (Validator.validate platformStub (Validator.withMessage Schema.date "m") (.bool true)).errors
      ≠ ["Value must be a Date, string, or number"]
    ∧ (Validator.validate platformStub (DateValidator.min Schema.date (.fin 100))
        (.date (.fin 0))).success = false := by
  refine ⟨?_, ?_, ?_⟩ <;>
    simp [Validator.validate, DateValidator.validate, DateValidator.parseDate,
      DateValidator.validateDateRange, DateValidator.min, Validator.withMessage,
      Validator.setCustomMessage, Schema.date, Validator.handleOptional,
      ValidationUtils.isNullish, Validator.createError, Validator.createSuccess, jsOr,
      platformStub, JSNum.isNaN, JSNum.lt] <;>
    all_goals decide

theorem createError_inv (cm : Option String) (d : String) :
    ((Validator.createError cm d).success = false → (Validator.createError cm d).errors ≠ []) ∧
    ((Validator.createError cm d).success = true → (Validator.createError cm d).errors = []) :=
  ⟨fun _ => by simp [Validator.createError], fun ht => by simp [Validator.createError] at ht⟩

theorem createSuccess_inv (dta : JSValue) :
    ((Validator.createSuccess dta).success = false → (Validator.createSuccess dta).errors ≠ []) ∧
    ((Validator.createSuccess dta).success = true → (Validator.createSuccess dta).errors = []) :=
  ⟨fun hf => by simp [Validator.createSuccess] at hf, fun _ => rfl⟩

theorem handleOptional_inv (o : Bool) (cm : Option String) (x : JSValue) (r : ValidationResult)
    (h : Validator.handleOptional o cm x = some r) :
    (r.success = false → r.errors ≠ []) ∧ (r.success = true → r.errors = []) := by
  rcases handleOptional_shape o x with ⟨-, h2⟩ | ⟨-, h2⟩ | ⟨-, h2⟩
  · rw [h2 cm] at h; cases h
  · rw [h2 cm] at h
    obtain rfl := Option.some.inj h
    exact createSuccess_inv .undef
  · rw [h2 cm] at h
    obtain rfl := Option.some.inj h
    exact createError_inv cm "Value is required"

theorem resultInvariant_aux : ∀ (n : Nat) (v : Validator), sizeOf v < n →
    ∀ (P : JSPlatform) (x : JSValue),
    ((Validator.validate P v x).success = false → (Validator.validate P v x).errors ≠ []) ∧
    ((Validator.validate P v x).success = true → (Validator.validate P v x).errors = []) := by
  intro n
  induction n with
  | zero => intro v hv; exact absurd hv (Nat.not_lt_zero _)
  | succ n ih =>
    intro v hv P x
    cases v with
    | string o cm mn mx pat =>
      rw [Validator.validate_string_eq]
      rcases stringValidator_validate_shape o mn mx pat x with ⟨dta, hs⟩ | ⟨d, he⟩
      · rw [hs cm]; exact createSuccess_inv dta
      · rw [he cm]; exact createError_inv cm d
    | number o cm mn mx i p =>
      rw [Validator.validate_number_eq]
      rcases numberValidator_validate_shape o mn mx i p x with ⟨dta, hs⟩ | ⟨d, he⟩
      · rw [hs cm]; exact createSuccess_inv dta
      · rw [he cm]; exact createError_inv cm d
    | boolean o cm =>
      rw [Validator.validate_boolean_eq]
      rcases booleanValidator_validate_shape o x with ⟨dta, hs⟩ | ⟨d, he⟩
      · rw [hs cm]; exact createSuccess_inv dta
      · rw [he cm]; exact createError_inv cm d
    | literal o cm value =>
      rw [Validator.validate_literal_eq]
      rcases literalValidator_validate_shape o value x with ⟨dta, hs⟩ | ⟨d, he⟩
      · rw [hs cm]; exact createSuccess_inv dta
      · rw [he cm]; exact createError_inv cm d
    | date o cm mnD mxD =>
      rw [Validator.validate_date_eq]
      rcases dateValidator_validate_shape P o mnD mxD x with ⟨dta, hs⟩ | ⟨d, he⟩
      · rw [hs cm]; exact createSuccess_inv dta
      · rw [he cm]; exact createError_inv cm d
    | array o cm mn mx it =>
      rw [Validator.validate_array_eq]
      cases hopt : Validator.handleOptional o cm x with
      | some r =>
        simp only [hopt]
        exact handleOptional_inv o cm x r hopt
      | none =>
        simp only [hopt]
        cases x with
        | arr elems =>
          cases hl : ValidationUtils.validateLength elems.length mn mx "Array" with
          | some e => simp only [hl]; exact createError_inv cm e
          | none =>
            simp only [hl]
            by_cases hE : (ArrayValidator.validateItems P it 0 elems).2.length > 0
            · rw [if_pos hE]
              refine ⟨fun _ hc => ?_, fun ht => by simp at ht⟩
              have hne : (ArrayValidator.validateItems P it 0 elems).2 ≠ [] := by
                intro h0
                rw [h0] at hE
                simp at hE
              exact hne (by simpa using hc)
            · rw [if_neg hE]
              exact createSuccess_inv _
        | null => exact createError_inv cm _
        | undef => exact createError_inv cm _
        | str s => exact createError_inv cm _
        | num q => exact createError_inv cm _
        | bool b => exact createError_inv cm _
        | date t => exact createError_inv cm _
        | obj fields => exact createError_inv cm _
    | object o cm schema =>
      rw [Validator.validate_object_eq]
      cases hopt : Validator.handleOptional o cm x with
      | some r =>
        simp only [hopt]
        exact handleOptional_inv o cm x r hopt
      | none =>
        simp only [hopt]
        by_cases ht : (jsTypeof x != "object" || JSValue.isArray x) = true
        · rw [if_pos ht]
          exact createError_inv cm _
        · rw [if_neg ht]
          by_cases hF : (ObjectValidator.validateFields P x schema).2.length > 0
          · rw [if_pos hF]
            refine ⟨fun _ hc => ?_, fun htt => by simp at htt⟩
            have hne : (ObjectValidator.validateFields P x schema).2 ≠ [] := by
              intro h0
              rw [h0] at hF
              simp at hF
            exact hne (by simpa using hc)
          · rw [if_neg hF]
            exact createSuccess_inv _
    | union o cm vs =>
      rw [Validator.validate_union_eq]
      cases hopt : Validator.handleOptional o cm x with
      | some r =>
        simp only [hopt]
        exact handleOptional_inv o cm x r hopt
      | none =>
        simp only [hopt]
        cases hu : UnionValidator.firstSuccess P x vs with
        | some r =>
          simp only [hu]
          obtain ⟨w, hw, rfl, hrs⟩ := UnionValidator.firstSuccess_mem P x vs r hu
          have hlt : sizeOf w < n := by
            have h1 : sizeOf w < sizeOf vs := List.sizeOf_lt_of_mem hw
            have h2 : sizeOf vs < sizeOf (Validator.union o cm vs) := by
              cases o <;> cases cm <;> simp
            omega
          exact ih w hlt P x
        | none =>
          simp only [hu]
          exact createError_inv cm _

/-- Claim C8: for every validator and every input, the returned
ValidationResult satisfies the result-type invariant: when success is
false the errors sequence is non-empty, and when success is true the
errors field carries nothing (data being always present in this embedding,
possibly undefined for an optional absent value). -/
theorem validationResult_invariant (P : JSPlatform) (v : Validator) (x : JSValue) :
    ((Validator.validate P v x).success = false → (Validator.validate P v x).errors ≠ []) ∧
    ((Validator.validate P v x).success = true → (Validator.validate P v x).errors = []) :=
  resultInvariant_aux (sizeOf v + 1) v (Nat.lt_succ_self _) P x

/-- Claim C8 witness: the invariant applied at concrete inputs — a failing
string validation has non-empty errors and a succeeding one has none —
with each implication's hypothesis discharged by evaluation. -/
theorem validationResult_invariant_witness :
    (Validator.validate platformStub Schema.string (.num (.fin 1))).errors ≠ [] ∧
    (Validator.validate platformStub Schema.string (.str "a")).errors = [] ∧
    (Validator.validate platformStub (Schema.literal (.num (.fin 1))) (.num (.fin 2))).errors ≠ [] := by
  refine ⟨?_, ?_, ?_⟩
  · exact (validationResult_invariant platformStub Schema.string (.num (.fin 1))).1 (by
      simp [Validator.validate, StringValidator.validate, Schema.string, Validator.handleOptional,
        ValidationUtils.isNullish, Validator.createError, jsOr, platformStub])
  · exact (validationResult_invariant platformStub Schema.string (.str "a")).2 (by
      simp [Validator.validate, StringValidator.validate, Schema.string, Validator.handleOptional,
        ValidationUtils.isNullish, ValidationUtils.validateLength, ValidationUtils.maxLengthCheck,
        Validator.createSuccess, platformStub])
  · exact (validationResult_invariant platformStub (Schema.literal (.num (.fin 1)))
      (.num (.fin 2))).1 (by
      simp [Validator.validate, LiteralValidator.validate, Schema.literal,
        Validator.handleOptional, ValidationUtils.isNullish, jsStrictEq, JSNum.strictEq,
        LiteralValue.toJSValue, LiteralValue.render, Validator.createError, jsOr, platformStub])

/-- Claim C9: strict() is implemented by setting the validator's custom
message, so after strict() every failure produced by the object validator
itself — including the nullish presence failure and the non-object type
failure — reports "Object contains unexpected properties" instead of its
default message, while for inputs that reach the field loop the result,
aggregated per-field errors included, is exactly that of the same
validator without the strict message. -/
theorem strict_sets_object_custom_message (P : JSPlatform) (o : Bool) (m0 : Option String)
    (schema : List (String × Validator)) (x : JSValue) :
    (ValidationUtils.isNullish x = true → o = false →
      Validator.validate P (ObjectValidator.strict (.object o m0 schema)) x =
        { success := false, data := .undef, errors := ["Object contains unexpected properties"] })
    ∧ (ValidationUtils.isNullish x = false → (jsTypeof x != "object" || JSValue.isArray x) = true →
      Validator.validate P (ObjectValidator.strict (.object o m0 schema)) x =
        { success := false, data := .undef, errors := ["Object contains unexpected properties"] })
    ∧ (ValidationUtils.isNullish x = false → (jsTypeof x != "object" || JSValue.isArray x) = false →
      Validator.validate P (ObjectValidator.strict (.object o m0 schema)) x =
        Validator.validate P (.object o m0 schema) x) := by
  refine ⟨?_, ?_, ?_⟩
  · intro hx ho
    subst ho
    simp only [ObjectValidator.strict, Validator.withMessage, Validator.setCustomMessage]
    rw [Validator.validate_object_eq]
    simp [Validator.handleOptional, hx, Validator.createError, jsOr]
    decide
  · intro hx ht
    simp only [ObjectValidator.strict, Validator.withMessage, Validator.setCustomMessage]
    rw [Validator.validate_object_eq]
    have h : Validator.handleOptional o (some "Object contains unexpected properties") x = none := by
      simp [Validator.handleOptional, hx]
    simp [h, ht, Validator.createError, jsOr]
    decide
  · intro hx ht
    simp only [ObjectValidator.strict, Validator.withMessage, Validator.setCustomMessage]
    rw [Validator.validate_object_eq, Validator.validate_object_eq]
    have h1 : Validator.handleOptional o (some "Object contains unexpected properties") x = none := by
      simp [Validator.handleOptional, hx]
    have h2 : Validator.handleOptional o m0 x = none := by
      simp [Validator.handleOptional, hx]
    simp [h1, h2, ht]

/-- Claim C9 witness: the statement applied at concrete inputs — after
strict(), the presence failure on null and the type failure on an array
both report "Object contains unexpected properties", while on an object
input the result equals that of the non-strict validator — each
hypothesis discharged at its input. -/
theorem strict_sets_object_custom_message_witness :
    Validator.validate platformStub (ObjectValidator.strict (Schema.object [("a", Schema.string)])) .null =
      { success := false, data := .undef, errors := ["Object contains unexpected properties"] }
    ∧ Validator.validate platformStub (ObjectValidator.strict (Schema.object [("a", Schema.string)])) (.arr []) =
      { success := false, data := .undef, errors := ["Object contains unexpected properties"] }
    ∧ Validator.validate platformStub (ObjectValidator.strict (Schema.object [("a", Schema.string)]))
        (.obj [("a", .num (.fin 1))]) =
      Validator.validate platformStub (Schema.object [("a", Schema.string)]) (.obj [("a", .num (.fin 1))]) :=
  ⟨(strict_sets_object_custom_message platformStub false none [("a", Schema.string)] .null).1 rfl rfl,
   (strict_sets_object_custom_message platformStub false none [("a", Schema.string)] (.arr [])).2.1
     rfl (by decide),
   (strict_sets_object_custom_message platformStub false none [("a", Schema.string)]
     (.obj [("a", .num (.fin 1))])).2.2 rfl (by decide)⟩
